import Mathlib

/-!
Verification development for the Biopython PDB acquisition core
(`Bio/PDB/PDBFile.py`, `Bio/PDB/PDBServer.py`, `Bio/PDB/PDBList.py` and the
`Bio/PDB/acquisition` package): a shallow embedding of the data model
(protocols, servers, file formats), the path/URL builders, the
fastest-server selection loop, the legacy server-string parser and the
retrieval orchestration, together with theorems about them.

Conventions of the embedding:
* Python exceptions become `Except` values; each distinct exception class is
  a constructor of a small error inductive.
* Python `Optional` values become `Option`; Python truthiness of an
  `Optional[int]`/`Optional[float]`/`Optional[str]` (where `None`, `0` and
  `""` are falsy) is modelled explicitly at each use site.
* Wall-clock probing, sockets and the actual byte transfer are external
  collaborators; they enter as oracle functions (`timing`, `fetch`,
  `gunzip`).  The filesystem is an association list from path to content.
* `str.format` templates are modelled by `pyFormat`, which substitutes each
  `{key}` occurrence; the source's templates only ever mention keys that the
  call site provides, so unknown keys (which raise in Python) are left
  verbatim here.
-/

namespace BioPDB

/-- View of an `Except` as a sum, used to derive decidable equality. -/
def exceptToSum {ε α : Type} : Except ε α → ε ⊕ α
  | .error e => .inl e
  | .ok a => .inr a

instance {ε α : Type} [DecidableEq ε] [DecidableEq α] :
    DecidableEq (Except ε α) := fun x y =>
  decidable_of_iff (exceptToSum x = exceptToSum y)
    (by cases x <;> cases y <;> simp [exceptToSum])

/-! Protocols (`PDBServer.PDBServerProtocol`, an `IntEnum` with two members,
declared in the order HTTPS, FTP). -/

inductive PDBServerProtocol where
  | HTTPS
  | FTP
deriving DecidableEq

/-- Enum value: HTTPS = 443, FTP = 21. -/
def PDBServerProtocol.port : PDBServerProtocol → Nat
  | .HTTPS => 443
  | .FTP => 21

/-- The enum member's `.name`. -/
def PDBServerProtocol.pname : PDBServerProtocol → String
  | .HTTPS => "HTTPS"
  | .FTP => "FTP"

/-- Python `str.lower()` for the ASCII strings at issue. -/
def pyLower (s : String) : String :=
  String.mk (s.toList.map Char.toLower)

/-- `protocol.method` is `self.name.lower()`. -/
def PDBServerProtocol.method (p : PDBServerProtocol) : String :=
  pyLower p.pname

/-- Iteration order over the enum (declaration order). -/
def protocolMembers : List PDBServerProtocol := [.HTTPS, .FTP]

/-! Servers (`PDBServer.PDBServer`, a frozen dataclass). -/

structure PDBServer where
  domain : String
  label : String
  pdb_directory : String := "/pub/pdb"
  ftp_subdomain : String := "ftp"
  http_subdomain : String := "files"
deriving DecidableEq

/-- `PDB_SERVERS["WW"]`. -/
def serverWW : PDBServer := { domain := "wwpdb.org", label := "Worldwide" }

/-- `PDB_SERVERS["US"]`. -/
def serverUS : PDBServer := { domain := "rcsb.org", label := "United States" }

/-- `PDB_SERVERS["UK"]`. -/
def serverUK : PDBServer :=
  { domain := "ebi.ac.uk", label := "United Kingdom",
    pdb_directory := "/pub/databases/pdb", http_subdomain := "ftp" }

/-- `PDB_SERVERS["JP"]`. -/
def serverJP : PDBServer :=
  { domain := "pdbj.org", label := "Japan", http_subdomain := "data.pdbjbk1" }

/-- `PDB_SERVERS.values()` in insertion order. -/
def pdbServerValues : List PDBServer := [serverWW, serverUS, serverUK, serverJP]

/-! Python `str.format` on the source's templates. -/

/-- Template substitution as a character state machine.  The first list
argument is `none` while copying literal characters; it is `some acc` (the
key's characters so far, reversed) while scanning a `{key}` placeholder.
On the closing brace the key is replaced by its value from `vars`; keys not
in `vars` are kept verbatim (the source's templates only use keys supplied
at the call site, so that branch never fires there), and an unterminated
placeholder (which raises in Python) is also kept verbatim. -/
def substAux (vars : List (String × String)) :
    Option (List Char) → List Char → List Char
  | none, [] => []
  | none, c :: rest =>
    if c = '\x7b' then substAux vars (some []) rest
    else c :: substAux vars none rest
  | some acc, [] => '\x7b' :: acc.reverse
  | some acc, c :: rest =>
    if c = '\x7d' then
      (match vars.lookup (String.mk acc.reverse) with
        | some v => v.toList
        | none => '\x7b' :: (acc.reverse ++ ['\x7d'])) ++ substAux vars none rest
    else substAux vars (some (c :: acc)) rest

/-- Python `template.format(**vars)` restricted as described at `substAux`. -/
def pyFormat (template : String) (vars : List (String × String)) : String :=
  String.mk (substAux vars none template.toList)

/-- Python `str(i)` for an `int`. -/
def pyIntStr (i : Int) : String := toString i

/-- Rendering of an `Optional[int]` inside an f-string / `format` call:
`None` prints as `"None"`. -/
def pyOptIntStr : Option Int → String
  | none => "None"
  | some i => pyIntStr i

/-- Python truthiness of an `Optional[int]`: `None` and `0` are falsy. -/
def pyOptIntFalsy : Option Int → Bool
  | none => true
  | some i => i = 0

/-- Python truthiness of an `Optional[str]`: `None` and `""` are falsy. -/
def pyOptStrTruthy : Option String → Bool
  | none => false
  | some s => s ≠ ""

/-! File formats (`PDBFile.PDBFileFormat`, a frozen dataclass). -/

structure PDBFileFormat where
  label : String
  extension : String
  directory_pattern : String
  filename_pattern : String := "{code}"
  obsolete_directory_pattern : Option String := none
  compressed_extension : Option String := some "gz"
  /-- Python type is `bool | None = None`; only its truthiness is ever used. -/
  multiple_files : Bool := false
  subdomain : Option String := none
  is_located_into_pdb_directory : Bool := true
  servers : List PDBServer := pdbServerValues
  protocols : List PDBServerProtocol := protocolMembers
deriving DecidableEq

/-- `has_obsolete_file`: the obsolete directory pattern is set (`is not None`). -/
def PDBFileFormat.has_obsolete_file (f : PDBFileFormat) : Bool :=
  f.obsolete_directory_pattern.isSome

/-- `has_compressed_file`: the compressed extension is set (`is not None`);
an empty string still counts as present. -/
def PDBFileFormat.has_compressed_file (f : PDBFileFormat) : Bool :=
  f.compressed_extension.isSome

/-- `BuildPDBFilePathError`: one Python exception class; the constructors
record which `raise` site fired (the messages differ). -/
inductive BuildPDBFilePathError where
  | compressedUnavailable
  | indexRequired
  | obsoleteUnavailable
deriving DecidableEq

/-- `PDBFileFormat.build_name`.  Defaults follow the source:
`compressed: bool | None = None` (falsy), `index: int | None = None`. -/
def PDBFileFormat.build_name (f : PDBFileFormat) (code : String)
    (compressed : Bool := false) (index : Option Int := none) :
    Except BuildPDBFilePathError String :=
  if compressed ∧ ¬ f.has_compressed_file then
    .error .compressedUnavailable
  else if f.multiple_files ∧ pyOptIntFalsy index then
    .error .indexRequired
  else
    let filename := pyFormat f.filename_pattern
      [("code", code), ("index", pyOptIntStr index)]
    let ext :=
      if f.extension ≠ "" then
        "." ++ pyFormat f.extension [("index", pyOptIntStr index)]
      else ""
    let extra :=
      if compressed ∧ pyOptStrTruthy f.compressed_extension then
        "." ++ f.compressed_extension.getD ""
      else ""
    .ok (filename ++ ext ++ extra)

/-- `code[1:3]`: the middle two characters of a 4-character PDB identifier. -/
def shortCode (code : String) : String :=
  String.mk ((code.toList.drop 1).take 2)

/-- `PDBFileFormat.build_path`.  Defaults follow the source:
`compressed: bool = True`, `obsolete: bool = False`, `index: int | None = None`. -/
def PDBFileFormat.build_path (f : PDBFileFormat) (code : String)
    (compressed : Bool := true) (obsolete : Bool := false)
    (index : Option Int := none) : Except BuildPDBFilePathError String :=
  if obsolete ∧ ¬ f.has_obsolete_file then
    .error .obsoleteUnavailable
  else
    let short_code := shortCode code
    let pattern :=
      if obsolete then f.obsolete_directory_pattern.getD "" else f.directory_pattern
    match f.build_name code compressed index with
    | .error e => .error e
    | .ok filename =>
      .ok (pyFormat pattern
        [("code", code), ("short_code", short_code),
         ("filename", filename), ("index", pyOptIntStr index)])

/-! The built-in format catalog `FILE_FORMATS`. -/

/-- `FILE_FORMATS["PDB"]`. -/
def formatPDB : PDBFileFormat :=
  { label := "PDB", extension := "ent", filename_pattern := "pdb{code}",
    directory_pattern := "/data/structures/divided/pdb/{short_code}/{filename}",
    obsolete_directory_pattern :=
      some "/data/structures/obsolete/pdb/{short_code}/{filename}" }

/-- `FILE_FORMATS["PDB_ASSEMBLY"]`. -/
def formatPDBAssembly : PDBFileFormat :=
  { label := "PDB (biological assembly)", extension := "pdb{index}",
    directory_pattern := "/data/biounit/PDB/divided/{short_code}/{filename}",
    multiple_files := true }

/-- `FILE_FORMATS["MMCIF"]`. -/
def formatMMCIF : PDBFileFormat :=
  { label := "PDBx/mmCIF", extension := "cif",
    directory_pattern := "/data/structures/divided/mmCIF/{short_code}/{filename}",
    obsolete_directory_pattern :=
      some "/data/structures/obsolete/mmCIF/{short_code}/{filename}" }

/-- `FILE_FORMATS["MMCIF_ASSEMBLY"]`. -/
def formatMMCIFAssembly : PDBFileFormat :=
  { label := "PDBx/mmCIF (biological assembly)", extension := "cif",
    filename_pattern := "{code}-assembly{index}",
    directory_pattern := "/data/assemblies/mmCIF/divided/{short_code}/{filename}",
    multiple_files := true }

/-- `FILE_FORMATS["PDBML"]`. -/
def formatPDBML : PDBFileFormat :=
  { label := "PDBML/XML", extension := "xml",
    directory_pattern := "/data/structures/divided/XML/{short_code}/{filename}",
    obsolete_directory_pattern :=
      some "/data/structures/obsolete/XML/{short_code}/{filename}" }

/-- `FILE_FORMATS["PDB_BUNDLE"]`. -/
def formatPDBBundle : PDBFileFormat :=
  { label := "PDB bundle", filename_pattern := "{code}-pdb-bundle",
    extension := "tar",
    directory_pattern := "/compatible/pdb_bundle/{short_code}/{code}/{filename}" }

/-- `FILE_FORMATS["MMTF"]`: empty extension, compressed-with-no-suffix
(`compressed_extension=""`, present but empty), single server, custom
subdomain, HTTPS only, outside the pdb directory. -/
def formatMMTF : PDBFileFormat :=
  { label := "MMTF", extension := "",
    directory_pattern := "/v1.0/full/{filename}",
    compressed_extension := some "",
    servers := [serverUS],
    subdomain := some "mmtf",
    protocols := [.HTTPS],
    is_located_into_pdb_directory := false }

/-- The `FILE_FORMATS` dict, in insertion order. -/
def FILE_FORMATS : List (String × PDBFileFormat) :=
  [("PDB", formatPDB), ("PDB_ASSEMBLY", formatPDBAssembly),
   ("MMCIF", formatMMCIF), ("MMCIF_ASSEMBLY", formatMMCIFAssembly),
   ("PDBML", formatPDBML), ("PDB_BUNDLE", formatPDBBundle),
   ("MMTF", formatMMTF)]

/-! `PDBServer.py`: subdomain resolution and URL building. -/

/-- Errors of the server module: `UnsupportedProtocolError`,
`UnsupportedServerError` (which records the offending server string) and a
propagated `BuildPDBFilePathError`. -/
inductive PDBServerError where
  | unsupportedProtocol
  | unsupportedServer (server : String)
  | buildPath (e : BuildPDBFilePathError)
deriving DecidableEq

/-- `PDBServer.subdomain`: reject a protocol the format does not allow;
a truthy format subdomain overrides the protocol-derived one.  The source
has a final `raise UnsupportedProtocolError` for a protocol that is
neither FTP nor HTTPS; the enum is closed, so that site is unreachable and
has no counterpart here. -/
def PDBServer.subdomain (s : PDBServer) (protocol : PDBServerProtocol)
    (file_format : PDBFileFormat) : Except PDBServerError String :=
  if protocol ∉ file_format.protocols then
    .error .unsupportedProtocol
  else if pyOptStrTruthy file_format.subdomain then
    .ok (file_format.subdomain.getD "")
  else
    match protocol with
    | .FTP => .ok s.ftp_subdomain
    | .HTTPS => .ok s.http_subdomain

/-- `PDBServer.build_full_domain`: subdomain, a dot, then the domain. -/
def PDBServer.build_full_domain (s : PDBServer) (protocol : PDBServerProtocol)
    (file_format : PDBFileFormat) : Except PDBServerError String :=
  (s.subdomain protocol file_format).map (fun sub => sub ++ "." ++ s.domain)

/-- `PDBServer.build_file_url`.  Defaults follow the source:
`compressed: bool = False`, `obsolete: bool = False`, `index = None`. -/
def PDBServer.build_file_url (s : PDBServer) (code : String)
    (file_format : PDBFileFormat) (protocol : PDBServerProtocol)
    (compressed : Bool := false) (obsolete : Bool := false)
    (index : Option Int := none) : Except PDBServerError String :=
  match s.build_full_domain protocol file_format with
  | .error e => .error e
  | .ok full_domain =>
    match file_format.build_path code compressed obsolete index with
    | .error e => .error (.buildPath e)
    | .ok path =>
      .ok (protocol.method ++ "://" ++ full_domain ++
        (if file_format.is_located_into_pdb_directory then s.pdb_directory else "") ++
        path)

/-- The URL that `PDBServer.retrieve_file` downloads from (the download
itself is external I/O).  Defaults follow the source: `compressed: bool =
True`, `obsolete: bool = False`, `index = None`. -/
def PDBServer.retrieve_file_url (s : PDBServer) (code : String)
    (file_format : PDBFileFormat) (protocol : PDBServerProtocol)
    (compressed : Bool := true) (obsolete : Bool := false)
    (index : Option Int := none) : Except PDBServerError String :=
  s.build_file_url code file_format protocol compressed obsolete index

/-! `PDBServer.handle_legacy_server` and its regex
`^(?P<protocol>\w*)://((?P<subdomain>.*?)\.)?(?P<domain>wwpdb\.org|rcsb\.org|ebi\.ac\.uk|pdbj\.org)(/)?$`. -/

/-- ASCII model of the regex class `\w` (the addresses at issue are ASCII). -/
def isWordChar (c : Char) : Bool := c.isAlphanum || c = '_'

/-- The regex's domain alternatives, in order. -/
def legacyDomains : List String := ["wwpdb.org", "rcsb.org", "ebi.ac.uk", "pdbj.org"]

/-- Match of the part after `://` against `((subdomain).)?d(/)?` for one
domain alternative `d`: the characters must decompose as
`middle ++ d ++ slash` with `slash` empty or a single `/` and `middle`
empty (subdomain group absent) or ending in a dot; the subdomain's
non-greedy `.*?` cannot match a newline. -/
def matchTail (r : List Char) (d : String) : Bool :=
  let tryTail (tail : List Char) : Bool :=
    decide (tail.length ≤ r.length) &&
    decide (r.drop (r.length - tail.length) = tail) &&
    (let middle := r.take (r.length - tail.length)
     (middle.isEmpty || decide (middle.getLast? = some '.')) &&
     !(middle.contains '\n'))
  tryTail d.toList || tryTail (d.toList ++ ['/'])

/-- `SERVER_REGEX.match(s)` reduced to its used captures: the protocol
(a maximal run of word characters, necessarily followed by the literal
`://`) and the matched domain alternative. -/
def matchServerRegex (s : String) : Option (String × String) :=
  let cs := s.toList
  let protocol := cs.takeWhile isWordChar
  let rest := cs.drop protocol.length
  if rest.take 3 = [':', '/', '/'] then
    (legacyDomains.find? (fun d => matchTail (rest.drop 3) d)).map
      (fun d => (String.mk protocol, d))
  else none

/-- `PDBServer.handle_legacy_server`: a failed regex match raises
`UnsupportedServerError` (the `match[...]` subscripts on `None` throw and
are caught); an unknown protocol name raises `UnsupportedProtocolError`;
an unknown domain raises `UnsupportedServerError`. -/
def handle_legacy_server (server : String) :
    Except PDBServerError (PDBServer × PDBServerProtocol) :=
  match matchServerRegex (pyLower server) with
  | none => .error (.unsupportedServer server)
  | some (protocol_str, domain_str) =>
    match protocolMembers.find? (fun p => pyLower p.pname == protocol_str) with
    | none => .error .unsupportedProtocol
    | some protocol_obj =>
      match pdbServerValues.find? (fun srv => srv.domain == domain_str) with
      | none => .error (.unsupportedServer server)
      | some server_obj => .ok (server_obj, protocol_obj)

/-! `get_fastest_server` (`Bio/PDB/acquisition/server.py`, and the variant
in `Bio/PDB/PDBList.py` that takes the candidate list as a parameter).
The wall-clock probe (`get_server_connection_timing` / the socket connect)
is external I/O and enters as the oracle `timing`; a rational stands for
the measured float duration, `none` for a failed or timed-out connect. -/

/-- One iteration of the selection loop.  Python:
`if timing and (not fastest_timing or timing < fastest_timing)` — an
`Optional[float]` is falsy when it is `None` or `0`. -/
def fastestStep {σ : Type} (timing : σ → Option ℚ)
    (acc : Option σ × Option ℚ) (server : σ) : Option σ × Option ℚ :=
  match timing server with
  | none => acc
  | some t =>
    if t = 0 then acc
    else
      match acc.2 with
      | none => (some server, some t)
      | some ft => if ft = 0 ∨ t < ft then (some server, some t) else acc

/-- `get_fastest_server`: fold the loop over the candidates; `error` models
`PDBServersConnectionError` (resp. the `PDBException` raised by the
`PDBList.py` variant) when no server was selected. -/
def get_fastest_server {σ : Type} (timing : σ → Option ℚ) (servers : List σ) :
    Except Unit σ :=
  match (servers.foldl (fastestStep timing) (none, none)).1 with
  | some s => .ok s
  | none => .error ()

/-- Spec-side view: the probes that count — failed or timed-out probes
(`none`) are discarded and zero-duration measurements are ignored. -/
def usableProbes {σ : Type} (timing : σ → Option ℚ) (servers : List σ) :
    List (σ × ℚ) :=
  servers.filterMap (fun s =>
    match timing s with
    | some t => if t = 0 then none else some (s, t)
    | none => none)

/-- Spec-side view: the entry with the strictly smallest time; equal times
resolve in favour of the first-seen entry. -/
def firstMin {σ : Type} : List (σ × ℚ) → Option (σ × ℚ)
  | [] => none
  | p :: rest =>
    match firstMin rest with
    | none => some p
    | some q => if p.2 ≤ q.2 then some p else some q

/-- Spec-side restatement of `fastestServer` following the spec's words. -/
def fastestServerSpec {σ : Type} (timing : σ → Option ℚ) (servers : List σ) :
    Except Unit σ :=
  match firstMin (usableProbes timing servers) with
  | some p => .ok p.1
  | none => .error ()

/-! `PDBList.py`: the retrieval orchestration (`PDBList.retrieve_pdb_file`,
`PDBList.retrieve_assembly_file`, `PDBList.download_assemblies`).  The
filesystem is an association list from path to file content; the network
is the oracle `fetch` (`urlretrieve`; `none` models the raised
`OSError`/`URLError`, in which case nothing is written) and gzip
extraction is the oracle `gunzip`.  Directory creation (`os.makedirs`)
manipulates no file content and is not modelled. -/

/-- Files on disk: path to content. -/
structure FS where
  files : List (String × String)
deriving DecidableEq

/-- `os.path.exists` / reading: look a path up. -/
def FS.lookupF (fs : FS) (p : String) : Option String :=
  fs.files.lookup p

/-- Write (or overwrite) a file. -/
def FS.write (fs : FS) (p v : String) : FS :=
  ⟨(p, v) :: fs.files.filter (fun kv => kv.1 ≠ p)⟩

/-- `os.remove`. -/
def FS.remove (fs : FS) (p : String) : FS :=
  ⟨fs.files.filter (fun kv => kv.1 ≠ p)⟩

/-- External collaborators: the fetch (one content per URL, `none` for a
raised transfer error) and gzip extraction. -/
structure NetEnv where
  fetch : String → Option String
  gunzip : String → String

/-- The world state a retrieval touches: the files and the log of URLs
fetched so far (one entry per network access). -/
structure RunState where
  fs : FS
  fetchLog : List String
deriving DecidableEq

/-- The `PDBList` object's fields used by retrieval: the chosen server's
pdb directory URL and the local tree settings. -/
structure PDBListCfg where
  pdb_dir_url : String
  local_pdb : String
  obsolete_pdb : String
  flat_tree : Bool
deriving DecidableEq

/-- `urllib.parse.urljoin` restricted to the shapes the source uses: an
absolute base and a relative path, resolved against the base up to its
last slash (the configured bases end in a slash, so this appends). -/
def urljoin (base rel : String) : String :=
  String.mk ((base.toList.reverse.dropWhile (fun c => c ≠ '/')).reverse ++ rel.toList)

/-- `os.path.join` for the relative segments the source joins. -/
def pathJoin (a b : String) : String := a ++ "/" ++ b

/-- The compressed archive file name per format
(`archive[file_format] % code` in `retrieve_pdb_file`); `none` models the
`KeyError` an unknown format raises. -/
def archiveFn (file_format code : String) : Option String :=
  if file_format = "pdb" then some ("pdb" ++ code ++ ".ent.gz")
  else if file_format = "mmCif" then some (code ++ ".cif.gz")
  else if file_format = "xml" then some (code ++ ".xml.gz")
  else if file_format = "mmtf" then some code
  else if file_format = "bundle" then some (code ++ "-pdb-bundle.tar.gz")
  else none

/-- The final (decompressed) file name per format
(`final[file_format] % code` in `retrieve_pdb_file`). -/
def finalFn (file_format code : String) : Option String :=
  if file_format = "pdb" then some ("pdb" ++ code ++ ".ent")
  else if file_format = "mmCif" then some (code ++ ".cif")
  else if file_format = "xml" then some (code ++ ".xml")
  else if file_format = "mmtf" then some (code ++ ".mmtf")
  else if file_format = "bundle" then some (code ++ "-pdb-bundle.tar")
  else none

/-- The download URL `retrieve_pdb_file` builds for a (lowered) code. -/
def retrieveUrl (pdb_dir_url file_format code archive_fn : String)
    (obsolete : Bool) : String :=
  if file_format = "pdb" ∨ file_format = "mmCif" ∨ file_format = "xml" then
    urljoin pdb_dir_url
      ("data/structures/" ++ (if obsolete then "obsolete" else "divided") ++ "/" ++
        (if file_format = "pdb" then "pdb"
          else if file_format = "mmCif" then "mmCIF" else "XML") ++ "/" ++
        shortCode code ++ "/" ++ archive_fn)
  else if file_format = "bundle" then
    urljoin pdb_dir_url
      ("compatible/pdb_bundle/" ++ shortCode code ++ "/" ++ code ++ "/" ++ archive_fn)
  else
    "http://mmtf.rcsb.org/v1.0/full/" ++ code

/-- The directory `retrieve_pdb_file` saves into. -/
def retrieveDir (cfg : PDBListCfg) (code : String) (obsolete : Bool)
    (pdir : Option String) : String :=
  match pdir with
  | some d => d
  | none =>
    let base := if obsolete then cfg.obsolete_pdb else cfg.local_pdb
    if cfg.flat_tree then base else pathJoin base (shortCode code)

/-- The local final path of `retrieve_pdb_file` (the decompressed file). -/
def retrieveFinalPath (cfg : PDBListCfg) (pdb_code file_format : String)
    (obsolete : Bool) (pdir : Option String) : String :=
  let code := pyLower pdb_code
  pathJoin (retrieveDir cfg code obsolete pdir) ((finalFn file_format code).getD "")

/-- `PDBList.retrieve_pdb_file`.  A failed transfer is caught
(`except OSError: print(...)`): the function still returns the final
path, writes nothing and raises nothing.  On success the archive is
written, decompressed into the final path, and the archive removed. -/
def retrieve_pdb_file (env : NetEnv) (cfg : PDBListCfg)
    (pdb_code file_format : String) (obsolete : Bool := false)
    (pdir : Option String := none) (overwrite : Bool := false)
    (st : RunState) : Except String (String × RunState) :=
  let code := pyLower pdb_code
  match archiveFn file_format code with
  | none => .error "KeyError"
  | some archive_fn =>
    let url := retrieveUrl cfg.pdb_dir_url file_format code archive_fn obsolete
    let path := retrieveDir cfg code obsolete pdir
    let filename := pathJoin path archive_fn
    let final_file := retrieveFinalPath cfg pdb_code file_format obsolete pdir
    if ¬ overwrite ∧ (st.fs.lookupF final_file).isSome then
      .ok (final_file, st)
    else
      let st1 : RunState := { st with fetchLog := st.fetchLog ++ [url] }
      match env.fetch url with
      | none => .ok (final_file, st1)
      | some content =>
        let fs3 := ((st1.fs.write filename content).write final_file
          (env.gunzip content)).remove filename
        .ok (final_file, { st1 with fs := fs3 })

/-- The archive name of one assembly
(`archive[file_format] % (pdb_code.lower(), int(assembly_num))` in
`retrieve_assembly_file`); `none` models the raise for an unsupported
format. -/
def assemblyArchiveFn (file_format code : String) (assembly_num : Nat) :
    Option String :=
  if file_format = "pdb" then
    some (code ++ ".pdb" ++ toString assembly_num ++ ".gz")
  else if file_format = "mmcif" then
    some (code ++ "-assembly" ++ toString assembly_num ++ ".cif.gz")
  else none

/-- The URL `retrieve_assembly_file` builds. -/
def assemblyUrl (pdb_dir_url file_format archive_fn : String) : String :=
  if file_format = "mmcif" then
    urljoin pdb_dir_url ("data/assemblies/mmCIF/all/" ++ archive_fn)
  else
    urljoin pdb_dir_url ("data/biounit/PDB/all/" ++ archive_fn)

/-- The directory `retrieve_assembly_file` saves into (note: the sharded
subdirectory uses the code as given, not lowered). -/
def assemblyDir (cfg : PDBListCfg) (pdb_code : String)
    (pdir : Option String) : String :=
  match pdir with
  | some d => d
  | none =>
    if cfg.flat_tree then cfg.local_pdb
    else pathJoin cfg.local_pdb (shortCode pdb_code)

/-- `PDBList.retrieve_assembly_file`.  Unlike `retrieve_pdb_file`, a
failed transfer is *not* caught here: the `URLError` propagates (second
component of the result carries the state at the raise).  The final file
drops the trailing `.gz` (`archive_fn[:-3]`). -/
def retrieve_assembly_file (env : NetEnv) (cfg : PDBListCfg)
    (pdb_code : String) (assembly_num : Nat) (file_format : String)
    (overwrite : Bool) (pdir : Option String) (st : RunState) :
    Except String String × RunState :=
  match assemblyArchiveFn (pyLower file_format) (pyLower pdb_code) assembly_num with
  | none => (.error "unsupported file_format", st)
  | some archive_fn =>
    let url := assemblyUrl cfg.pdb_dir_url (pyLower file_format) archive_fn
    let path := assemblyDir cfg pdb_code pdir
    let assembly_gz_file := pathJoin path archive_fn
    let assembly_final_file :=
      pathJoin path (String.mk (archive_fn.toList.take (archive_fn.toList.length - 3)))
    if ¬ overwrite ∧ (st.fs.lookupF assembly_final_file).isSome then
      (.ok assembly_final_file, st)
    else
      let st1 : RunState := { st with fetchLog := st.fetchLog ++ [url] }
      match env.fetch url with
      | none => (.error "URLError", st1)
      | some content =>
        let fs3 := ((st1.fs.write assembly_gz_file content).write
          assembly_final_file (env.gunzip content)).remove assembly_gz_file
        (.ok assembly_final_file, { st1 with fs := fs3 })

/-- The `while` loop of `PDBList.download_assemblies`: `assembly_index`
runs from the current value up to `max_index = 20`; a `URLError` from
`retrieve_assembly_file` ends the loop (any other exception propagates).
The Python function body has no `return`, so the value produced is `None`
— modelled as `.ok none` in a type that could also carry a list of paths. -/
def download_assemblies_go (env : NetEnv) (cfg : PDBListCfg)
    (pdb_code file_format : String) (overwrite : Bool) (pdir : Option String) :
    Nat → Nat → RunState → Except String (Option (List String)) × RunState
  | 0, _, st => (.ok none, st)
  | remaining + 1, assembly_index, st =>
    match retrieve_assembly_file env cfg pdb_code (assembly_index + 1)
        file_format overwrite pdir st with
    | (.ok _, st1) =>
      download_assemblies_go env cfg pdb_code file_format overwrite pdir
        remaining (assembly_index + 1) st1
    | (.error e, st1) =>
      if e = "URLError" then (.ok none, st1) else (.error e, st1)

/-- `PDBList.download_assemblies`: the loop runs while
`assembly_index < max_index = 20`, so `remaining = 20 - assembly_index`
attempts are left from the start. -/
def download_assemblies (env : NetEnv) (cfg : PDBListCfg)
    (pdb_code file_format : String) (overwrite : Bool)
    (pdir : Option String) (st : RunState) :
    Except String (Option (List String)) × RunState :=
  download_assemblies_go env cfg pdb_code file_format overwrite pdir 20 0 st

/-- The protocol-derived subdomain of a server (spec-side shorthand for
the FTP/HTTPS branches of `PDBServer.subdomain`). -/
def protocolSubdomain (s : PDBServer) : PDBServerProtocol → String
  | .FTP => s.ftp_subdomain
  | .HTTPS => s.http_subdomain

/-- A format whose subdomain override is present but empty: set under the
claim's reading of the data model, falsy under the code's test. -/
def formatEmptySubdomain : PDBFileFormat :=
  { label := "TEST", extension := "txt",
    directory_pattern := "/test/{filename}", subdomain := some "" }

/-- A string ends with the given suffix. -/
def strEndsWith (s t : String) : Prop := ∃ q, s = q ++ t

/-- The URL `download_assemblies` tries for attempt `i`. -/
def assemblyUrlOf (cfg : PDBListCfg) (file_format pdb_code : String)
    (i : Nat) : String :=
  assemblyUrl cfg.pdb_dir_url (pyLower file_format)
    ((assemblyArchiveFn (pyLower file_format) (pyLower pdb_code) i).getD "")

/-- How many attempts the `download_assemblies` loop makes from a given
position when every attempt reaches the network: it counts up to the
first index whose fetch fails (that failing attempt included), bounded by
the remaining budget. -/
def assemblyAttempts (env : NetEnv) (cfg : PDBListCfg)
    (file_format pdb_code : String) : Nat → Nat → Nat
  | 0, _ => 0
  | remaining + 1, idx =>
    if (env.fetch (assemblyUrlOf cfg file_format pdb_code (idx + 1))).isNone
    then 1
    else 1 + assemblyAttempts env cfg file_format pdb_code remaining (idx + 1)

/-- Total attempts of `download_assemblies`: the first index in 1..20
whose fetch fails, or all 20 when none fails. -/
def assemblyAttemptCount (env : NetEnv) (cfg : PDBListCfg)
    (file_format pdb_code : String) : Nat :=
  assemblyAttempts env cfg file_format pdb_code 20 0

/-- A concrete `PDBList` configuration for the concrete scenarios. -/
def cfgTest : PDBListCfg :=
  { pdb_dir_url := "https://files.rcsb.org/pub/pdb/",
    local_pdb := "/pdb", obsolete_pdb := "/pdb/obsolete", flat_tree := false }

/-- A network where every fetch fails (the remote file is absent). -/
def envFail : NetEnv := { fetch := fun _ => none, gunzip := fun c => c }

/-- A network where every fetch succeeds with the same payload. -/
def envAlways : NetEnv :=
  { fetch := fun _ => some "DATA", gunzip := fun c => c ++ "!" }

/-- A network where exactly the first mmCIF assembly of `127d` exists. -/
def envOneAssembly : NetEnv :=
  { fetch := fun url =>
      if url =
        "https://files.rcsb.org/pub/pdb/data/assemblies/mmCIF/all/127d-assembly1.cif.gz"
      then some "GZDATA" else none,
    gunzip := fun c => c ++ "!" }

/-- The selection loop started from an already-selected candidate `(s0, t0)`
with a nonzero timing computes the first minimum of the remaining usable
probes, preferring `(s0, t0)` on ties. -/
lemma fastest_foldl_some {σ : Type} (timing : σ → Option ℚ) (l : List σ)
    (s0 : σ) (t0 : ℚ) (h0 : t0 ≠ 0) :
    l.foldl (fastestStep timing) (some s0, some t0) =
      (match firstMin (usableProbes timing l) with
        | none => (some s0, some t0)
        | some q => if t0 ≤ q.2 then (some s0, some t0) else (some q.1, some q.2)) := by
  induction l generalizing s0 t0 with
  | nil => simp [usableProbes, firstMin]
  | cons x rest ih =>
    simp only [List.foldl_cons]
    cases hx : timing x with
    | none =>
      rw [show fastestStep timing (some s0, some t0) x = (some s0, some t0) by
        simp [fastestStep, hx]]
      rw [ih s0 t0 h0]
      simp [usableProbes, List.filterMap_cons, hx]
    | some t =>
      by_cases ht : t = 0
      · rw [show fastestStep timing (some s0, some t0) x = (some s0, some t0) by
          simp [fastestStep, hx, ht]]
        rw [ih s0 t0 h0]
        simp [usableProbes, List.filterMap_cons, hx, ht]
      · have hstep : fastestStep timing (some s0, some t0) x =
            (if t < t0 then (some x, some t) else (some s0, some t0)) := by
          simp [fastestStep, hx, ht, h0]
        have hprobes : usableProbes timing (x :: rest) =
            (x, t) :: usableProbes timing rest := by
          simp [usableProbes, List.filterMap_cons, hx, ht]
        rw [hstep, hprobes]
        by_cases hlt : t < t0
        · rw [if_pos hlt, ih x t ht]
          simp only [firstMin]
          cases hfm : firstMin (usableProbes timing rest) with
          | none => simp [not_le.mpr hlt]
          | some q =>
            by_cases hq : t ≤ q.2
            · simp [hq, not_le.mpr hlt]
            · have h2 : ¬ t0 ≤ q.2 := not_le.mpr ((not_le.mp hq).trans hlt)
              simp [hq, h2]
        · rw [if_neg hlt, ih s0 t0 h0]
          have ht0t : t0 ≤ t := not_lt.mp hlt
          simp only [firstMin]
          cases hfm : firstMin (usableProbes timing rest) with
          | none => simp [ht0t]
          | some q =>
            by_cases hq : t ≤ q.2
            · simp [hq, ht0t, ht0t.trans hq]
            · simp [hq]

/-- The selection loop from the empty accumulator computes the first
minimum of the usable probes. -/
lemma fastest_foldl_none {σ : Type} (timing : σ → Option ℚ) (l : List σ) :
    l.foldl (fastestStep timing) (none, none) =
      (match firstMin (usableProbes timing l) with
        | none => ((none : Option σ), (none : Option ℚ))
        | some q => (some q.1, some q.2)) := by
  induction l with
  | nil => simp [usableProbes, firstMin]
  | cons x rest ih =>
    simp only [List.foldl_cons]
    cases hx : timing x with
    | none =>
      rw [show fastestStep timing (none, none) x = (none, none) by
        simp [fastestStep, hx]]
      rw [ih]
      simp [usableProbes, List.filterMap_cons, hx]
    | some t =>
      by_cases ht : t = 0
      · rw [show fastestStep timing (none, none) x = (none, none) by
          simp [fastestStep, hx, ht]]
        rw [ih]
        simp [usableProbes, List.filterMap_cons, hx, ht]
      · have hstep : fastestStep timing (none, none) x = (some x, some t) := by
          simp [fastestStep, hx, ht]
        have hprobes : usableProbes timing (x :: rest) =
            (x, t) :: usableProbes timing rest := by
          simp [usableProbes, List.filterMap_cons, hx, ht]
        rw [hstep, hprobes, fastest_foldl_some timing rest x t ht]
        simp only [firstMin]
        cases hfm : firstMin (usableProbes timing rest) with
        | none => simp
        | some q => by_cases hq : t ≤ q.2 <;> simp [hq]

/-- The loop implements the spec-side selection. -/
lemma get_fastest_server_eq_spec {σ : Type} (timing : σ → Option ℚ)
    (servers : List σ) :
    get_fastest_server timing servers = fastestServerSpec timing servers := by
  unfold get_fastest_server fastestServerSpec
  rw [fastest_foldl_none]
  cases hfm : firstMin (usableProbes timing servers) <;> simp [hfm]

/-! String helper lemmas. -/

lemma string_mk_toList (s : String) : String.mk s.toList = s := by
  cases s
  rfl

lemma string_toList_append (a b : String) :
    (a ++ b).toList = a.toList ++ b.toList := by
  cases a
  cases b
  rfl

lemma string_append_assoc (a b c : String) : a ++ b ++ c = a ++ (b ++ c) := by
  cases a
  cases b
  cases c
  exact congrArg String.mk (List.append_assoc _ _ _)

lemma string_append_nil (a : String) : a ++ "" = a := by
  cases a
  exact congrArg String.mk (List.append_nil _)

lemma string_length_append (a b : String) :
    (a ++ b).length = a.length + b.length := by
  cases a
  cases b
  exact List.length_append _ _

lemma string_ne_of_length_ne {a b : String} (h : a.length ≠ b.length) :
    a ≠ b := by
  intro e
  exact h (e ▸ rfl)

lemma getLast?_append_right {α : Type} (l m : List α) (h : m ≠ []) :
    (l ++ m).getLast? = m.getLast? := by
  exact List.getLast?_append_of_ne_nil l h

lemma strEndsWith_gz_last {s : String} (h : strEndsWith s ".gz") :
    s.toList.getLast? = some 'z' := by
  obtain ⟨q, rfl⟩ := h
  rw [string_toList_append]
  rw [getLast?_append_right _ _ (by decide)]
  rfl

/-! Evaluation lemmas for `substAux` on the source's templates. -/

lemma substAux_nil (vars : List (String × String)) :
    substAux vars none [] = [] := rfl

lemma substAux_split (vars : List (String × String)) (pre rest : List Char)
    (hpre : '\x7b' ∉ pre) :
    substAux vars none (pre ++ rest) = pre ++ substAux vars none rest := by
  induction pre with
  | nil => rfl
  | cons c t ih =>
    have hc : c ≠ '\x7b' := fun e => hpre (e ▸ List.mem_cons_self c t)
    have ht : '\x7b' ∉ t := fun m => hpre (List.mem_cons_of_mem c m)
    rw [List.cons_append, substAux, if_neg hc, ih ht, List.cons_append]

lemma substAux_scanKey (vars : List (String × String)) (rest : List Char) :
    ∀ (ks : List Char) (acc : List Char), '\x7d' ∉ ks →
    substAux vars (some acc) (ks ++ '\x7d' :: rest) =
      (match vars.lookup (String.mk (acc.reverse ++ ks)) with
        | some v => v.toList
        | none => '\x7b' :: ((acc.reverse ++ ks) ++ ['\x7d'])) ++
      substAux vars none rest := by
  intro ks
  induction ks with
  | nil =>
    intro acc _
    rw [List.nil_append, substAux, if_pos rfl, List.append_nil]
  | cons k t ih =>
    intro acc hk
    have hne : k ≠ '\x7d' := fun e => hk (e ▸ List.mem_cons_self k t)
    have ht : '\x7d' ∉ t := fun m => hk (List.mem_cons_of_mem k m)
    rw [List.cons_append, substAux, if_neg hne, ih (k :: acc) ht]
    have hrev : (k :: acc).reverse ++ t = acc.reverse ++ (k :: t) := by
      rw [List.reverse_cons, List.append_assoc]
      rfl
    rw [hrev]

/-- Substituting one `{key}` placeholder. -/
lemma substAux_key (vars : List (String × String)) (key : String) (v : String)
    (rest : List Char) (hkey : '\x7d' ∉ key.toList)
    (hlk : vars.lookup key = some v) :
    substAux vars none ('\x7b' :: (key.toList ++ '\x7d' :: rest)) =
      v.toList ++ substAux vars none rest := by
  rw [substAux, if_pos rfl, substAux_scanKey vars rest key.toList [] hkey]
  simp only [List.reverse_nil, List.nil_append, string_mk_toList, hlk]

lemma substAux_no_braces (vars : List (String × String)) (cs : List Char)
    (h : '\x7b' ∉ cs) : substAux vars none cs = cs := by
  have := substAux_split vars cs [] h
  rw [List.append_nil] at this
  rw [this, substAux_nil, List.append_nil]

lemma string_mk_append_toList (s : String) (l : List Char) :
    String.mk (s.toList ++ l) = s ++ String.mk l := by
  cases s
  rfl

lemma pyFormat_no_braces (t : String) (vars : List (String × String))
    (h : '\x7b' ∉ t.toList) : pyFormat t vars = t := by
  unfold pyFormat
  rw [substAux_no_braces vars _ h, string_mk_toList]

/-- Evaluation of a directory pattern of the shape
`pre{short_code}mid{filename}`. -/
lemma pyFormat_two_keys (vars : List (String × String))
    (pre mid vs vf tmpl : String)
    (htmpl : tmpl.toList =
      pre.toList ++ ('\x7b' :: ("short_code".toList ++ '\x7d' ::
        (mid.toList ++ ('\x7b' :: ("filename".toList ++ '\x7d' :: []))))))
    (hpre : '\x7b' ∉ pre.toList) (hmid : '\x7b' ∉ mid.toList)
    (hs : vars.lookup "short_code" = some vs)
    (hf : vars.lookup "filename" = some vf) :
    pyFormat tmpl vars = pre ++ (vs ++ (mid ++ (vf ++ ""))) := by
  unfold pyFormat
  rw [htmpl, substAux_split vars _ _ hpre,
    substAux_key vars "short_code" vs _ (by decide) hs,
    substAux_split vars _ _ hmid,
    substAux_key vars "filename" vf _ (by decide) hf,
    substAux_nil]
  rw [string_mk_append_toList, string_mk_append_toList, string_mk_append_toList,
    string_mk_append_toList]

/-- Evaluation of a directory pattern of the shape
`pre{short_code}mid1{code}mid2{filename}` (the PDB bundle layout). -/
lemma pyFormat_three_keys (vars : List (String × String))
    (pre mid1 mid2 vs vc vf tmpl : String)
    (htmpl : tmpl.toList =
      pre.toList ++ ('\x7b' :: ("short_code".toList ++ '\x7d' ::
        (mid1.toList ++ ('\x7b' :: ("code".toList ++ '\x7d' ::
          (mid2.toList ++ ('\x7b' :: ("filename".toList ++ '\x7d' :: [])))))))))
    (hpre : '\x7b' ∉ pre.toList) (hmid1 : '\x7b' ∉ mid1.toList)
    (hmid2 : '\x7b' ∉ mid2.toList)
    (hs : vars.lookup "short_code" = some vs)
    (hc : vars.lookup "code" = some vc)
    (hf : vars.lookup "filename" = some vf) :
    pyFormat tmpl vars =
      pre ++ (vs ++ (mid1 ++ (vc ++ (mid2 ++ (vf ++ ""))))) := by
  unfold pyFormat
  rw [htmpl, substAux_split vars _ _ hpre,
    substAux_key vars "short_code" vs _ (by decide) hs,
    substAux_split vars _ _ hmid1,
    substAux_key vars "code" vc _ (by decide) hc,
    substAux_split vars _ _ hmid2,
    substAux_key vars "filename" vf _ (by decide) hf,
    substAux_nil]
  rw [string_mk_append_toList, string_mk_append_toList, string_mk_append_toList,
    string_mk_append_toList, string_mk_append_toList, string_mk_append_toList]

lemma strEndsWith_of_right (a b t : String) (h : strEndsWith b t) :
    strEndsWith (a ++ b) t := by
  obtain ⟨q, rfl⟩ := h
  exact ⟨a ++ q, (string_append_assoc a q t).symm⟩

/-- The tail produced by `build_name` for a compressed `gz` request ends
with `.gz`. -/
lemma endsWith_gz_tail (X : String) :
    strEndsWith ((X ++ ("." ++ "gz")) ++ "") ".gz" := by
  rw [string_append_nil]
  exact ⟨X, rfl⟩

lemma string_toList_ne_nil_right (a b : String) (h : b.toList ≠ []) :
    (a ++ b).toList ≠ [] := by
  rw [string_toList_append]
  intro e
  exact h (List.append_eq_nil.mp e).2

lemma string_toList_ne_nil_left (a b : String) (h : a.toList ≠ []) :
    (a ++ b).toList ≠ [] := by
  rw [string_toList_append]
  intro e
  exact h (List.append_eq_nil.mp e).1

lemma getLast?_string_append (a b : String) (h : b.toList ≠ []) :
    (a ++ b).toList.getLast? = b.toList.getLast? := by
  rw [string_toList_append]
  exact getLast?_append_right _ _ h

lemma not_endsWith_gz_of_last {s : String} {c : Char} (hc : c ≠ 'z')
    (h : s.toList.getLast? = some c) : ¬ strEndsWith s ".gz" := by
  intro he
  rw [strEndsWith_gz_last he] at h
  exact hc (Option.some.inj h).symm

/-- Inversion of a successful `build_file_url`: both the domain and the
path resolved, and the URL is their assembly. -/
lemma build_file_url_ok_inv (s : PDBServer) (code : String)
    (f : PDBFileFormat) (proto : PDBServerProtocol)
    (compressed obsolete : Bool) (idx : Option Int) (u : String)
    (hu : s.build_file_url code f proto compressed obsolete idx = .ok u) :
    ∃ dom path, s.build_full_domain proto f = .ok dom ∧
      f.build_path code compressed obsolete idx = .ok path ∧
      u = proto.method ++ "://" ++ dom ++
        (if f.is_located_into_pdb_directory then s.pdb_directory else "") ++
        path := by
  unfold PDBServer.build_file_url at hu
  cases hdom : s.build_full_domain proto f with
  | error e =>
    rw [hdom] at hu
    exact absurd hu (by simp)
  | ok dom =>
    rw [hdom] at hu
    cases hpath : f.build_path code compressed obsolete idx with
    | error e =>
      rw [hpath] at hu
      exact absurd hu (by simp)
    | ok path =>
      rw [hpath] at hu
      refine ⟨dom, path, rfl, rfl, ?_⟩
      injection hu with hu
      exact hu.symm

/-! Association-list filesystem lemmas. -/

lemma lookup_filter_ne (l : List (String × String)) (p q : String)
    (h : q ≠ p) :
    (l.filter (fun kv => kv.1 ≠ p)).lookup q = l.lookup q := by
  induction l with
  | nil => rfl
  | cons kv rest ih =>
    by_cases hk : kv.1 = p
    · have hq : (q == kv.1) = false := by
        rw [hk]
        exact beq_false_of_ne h
      rw [List.filter_cons_of_neg (by simp [hk]), ih]
      simp [List.lookup, hq]
    · rw [List.filter_cons_of_pos (by simp [hk])]
      simp only [List.lookup]
      cases hqk : q == kv.1
      · simpa using ih
      · rfl

lemma FS.lookupF_write_self (fs : FS) (p v : String) :
    (fs.write p v).lookupF p = some v := by
  simp [FS.write, FS.lookupF, List.lookup]

lemma FS.lookupF_write_ne (fs : FS) (p v q : String) (h : q ≠ p) :
    (fs.write p v).lookupF q = fs.lookupF q := by
  simp only [FS.write, FS.lookupF, List.lookup, beq_false_of_ne h]
  exact lookup_filter_ne fs.files p q h

lemma FS.lookupF_remove_ne (fs : FS) (p q : String) (h : q ≠ p) :
    (fs.remove p).lookupF q = fs.lookupF q := by
  simp only [FS.remove, FS.lookupF]
  exact lookup_filter_ne fs.files p q h

/-- Two joins of different-length names under the same directory differ. -/
lemma pathJoin_ne_of_len (path a b : String) (h : a.length ≠ b.length) :
    pathJoin path a ≠ pathJoin path b := by
  apply string_ne_of_length_ne
  unfold pathJoin
  simp only [string_length_append]
  omega

/-- `retrieve_pdb_file` with `overwrite=False` and the final file present
returns that path at once, touching neither the files nor the fetch log. -/
lemma retrieve_skip (env : NetEnv) (cfg : PDBListCfg) (pdb_code ffmt : String)
    (obsolete : Bool) (pdir : Option String) (st : RunState)
    (h1 : (archiveFn ffmt (pyLower pdb_code)).isSome)
    (h2 : (st.fs.lookupF
      (retrieveFinalPath cfg pdb_code ffmt obsolete pdir)).isSome) :
    retrieve_pdb_file env cfg pdb_code ffmt obsolete pdir false st =
      .ok (retrieveFinalPath cfg pdb_code ffmt obsolete pdir, st) := by
  obtain ⟨afn, hafn⟩ := Option.isSome_iff_exists.mp h1
  simp only [retrieve_pdb_file]
  rw [hafn]
  simp [h2]

/-- `retrieve_pdb_file` when the guard does not fire and the fetch
succeeds: the archive is written, decompressed into the final path and
removed, and the URL is logged. -/
lemma retrieve_fetch_ok (env : NetEnv) (cfg : PDBListCfg)
    (pdb_code ffmt : String) (obsolete : Bool) (pdir : Option String)
    (overwrite : Bool) (st : RunState) (afn content : String)
    (hafn : archiveFn ffmt (pyLower pdb_code) = some afn)
    (hguard : ¬ ((overwrite = false) ∧ (st.fs.lookupF
      (retrieveFinalPath cfg pdb_code ffmt obsolete pdir)).isSome = true))
    (hfetch : env.fetch
      (retrieveUrl cfg.pdb_dir_url ffmt (pyLower pdb_code) afn obsolete) =
      some content) :
    retrieve_pdb_file env cfg pdb_code ffmt obsolete pdir overwrite st =
      .ok (retrieveFinalPath cfg pdb_code ffmt obsolete pdir,
        { fs := ((st.fs.write
              (pathJoin (retrieveDir cfg (pyLower pdb_code) obsolete pdir) afn)
              content).write
            (retrieveFinalPath cfg pdb_code ffmt obsolete pdir)
            (env.gunzip content)).remove
            (pathJoin (retrieveDir cfg (pyLower pdb_code) obsolete pdir) afn),
          fetchLog := st.fetchLog ++
            [retrieveUrl cfg.pdb_dir_url ffmt (pyLower pdb_code) afn obsolete] }) := by
  simp only [retrieve_pdb_file, hafn]
  rw [if_neg (by simpa using hguard)]
  simp only [hfetch]

/-- For each supported format, the local final file name differs from the
downloaded archive name (they differ in length), so removing the archive
cannot remove the final file. -/
lemma final_ne_archive (cfg : PDBListCfg) (pdb_code ffmt : String)
    (obsolete : Bool) (pdir : Option String) (afn : String)
    (hmem : ffmt ∈ (["pdb", "mmCif", "xml", "mmtf", "bundle"] : List String))
    (hafn : archiveFn ffmt (pyLower pdb_code) = some afn) :
    retrieveFinalPath cfg pdb_code ffmt obsolete pdir ≠
      pathJoin (retrieveDir cfg (pyLower pdb_code) obsolete pdir) afn := by
  simp only [List.mem_cons, List.not_mem_nil, or_false] at hmem
  rcases hmem with rfl | rfl | rfl | rfl | rfl
  · rw [show archiveFn "pdb" (pyLower pdb_code) =
        some ("pdb" ++ pyLower pdb_code ++ ".ent.gz") from rfl] at hafn
    injection hafn with h
    subst h
    show pathJoin _ ("pdb" ++ pyLower pdb_code ++ ".ent") ≠ _
    apply pathJoin_ne_of_len
    simp only [string_length_append]
    have h1 : (".ent" : String).length = 4 := rfl
    have h2 : (".ent.gz" : String).length = 7 := rfl
    omega
  · rw [show archiveFn "mmCif" (pyLower pdb_code) =
        some (pyLower pdb_code ++ ".cif.gz") from rfl] at hafn
    injection hafn with h
    subst h
    show pathJoin _ (pyLower pdb_code ++ ".cif") ≠ _
    apply pathJoin_ne_of_len
    simp only [string_length_append]
    have h1 : (".cif" : String).length = 4 := rfl
    have h2 : (".cif.gz" : String).length = 7 := rfl
    omega
  · rw [show archiveFn "xml" (pyLower pdb_code) =
        some (pyLower pdb_code ++ ".xml.gz") from rfl] at hafn
    injection hafn with h
    subst h
    show pathJoin _ (pyLower pdb_code ++ ".xml") ≠ _
    apply pathJoin_ne_of_len
    simp only [string_length_append]
    have h1 : (".xml" : String).length = 4 := rfl
    have h2 : (".xml.gz" : String).length = 7 := rfl
    omega
  · rw [show archiveFn "mmtf" (pyLower pdb_code) =
        some (pyLower pdb_code) from rfl] at hafn
    injection hafn with h
    subst h
    show pathJoin _ (pyLower pdb_code ++ ".mmtf") ≠ _
    apply pathJoin_ne_of_len
    simp only [string_length_append]
    have h1 : (".mmtf" : String).length = 5 := rfl
    omega
  · rw [show archiveFn "bundle" (pyLower pdb_code) =
        some (pyLower pdb_code ++ "-pdb-bundle.tar.gz") from rfl] at hafn
    injection hafn with h
    subst h
    show pathJoin _ (pyLower pdb_code ++ "-pdb-bundle.tar") ≠ _
    apply pathJoin_ne_of_len
    simp only [string_length_append]
    have h1 : ("-pdb-bundle.tar" : String).length = 15 := rfl
    have h2 : ("-pdb-bundle.tar.gz" : String).length = 18 := rfl
    omega

/-- Truthiness of an optional int is exactly absence or zero. -/
lemma pyOptIntFalsy_iff (index : Option Int) :
    pyOptIntFalsy index = true ↔ (index = none ∨ index = some 0) := by
  cases index with
  | none => simp [pyOptIntFalsy]
  | some i => simp [pyOptIntFalsy]

/-- A missing compressed variant is exactly an absent compressed extension. -/
lemma has_compressed_false_iff (f : PDBFileFormat) :
    (¬ f.has_compressed_file) ↔ f.compressed_extension = none := by
  unfold PDBFileFormat.has_compressed_file
  cases f.compressed_extension <;> simp

/-- Default `build_path` of the PDB format ends in `.gz`. -/
lemma pathGz_PDB (code p : String)
    (hp : formatPDB.build_path code = .ok p) : strEndsWith p ".gz" := by
  replace hp : Except.ok (ε := BuildPDBFilePathError)
      (pyFormat "/data/structures/divided/pdb/{short_code}/{filename}"
        [("code", code), ("short_code", shortCode code),
         ("filename",
           (pyFormat "pdb{code}" [("code", code), ("index", pyOptIntStr none)] ++
             ("." ++ pyFormat "ent" [("index", pyOptIntStr none)])) ++
           ("." ++ "gz")),
         ("index", pyOptIntStr none)]) = .ok p := hp
  rw [pyFormat_two_keys
    [("code", code), ("short_code", shortCode code),
     ("filename",
       (pyFormat "pdb{code}" [("code", code), ("index", pyOptIntStr none)] ++
         ("." ++ pyFormat "ent" [("index", pyOptIntStr none)])) ++
       ("." ++ "gz")),
     ("index", pyOptIntStr none)]
    "/data/structures/divided/pdb/" "/" _ _
    "/data/structures/divided/pdb/{short_code}/{filename}" rfl
    (by decide) (by decide) rfl rfl] at hp
  injection hp with hp
  subst hp
  exact strEndsWith_of_right _ _ _ (strEndsWith_of_right _ _ _
    (strEndsWith_of_right _ _ _ (endsWith_gz_tail _)))

/-- Default `build_path` of the MMCIF format ends in `.gz`. -/
lemma pathGz_MMCIF (code p : String)
    (hp : formatMMCIF.build_path code = .ok p) : strEndsWith p ".gz" := by
  replace hp : Except.ok (ε := BuildPDBFilePathError)
      (pyFormat "/data/structures/divided/mmCIF/{short_code}/{filename}"
        [("code", code), ("short_code", shortCode code),
         ("filename",
           (pyFormat "{code}" [("code", code), ("index", pyOptIntStr none)] ++
             ("." ++ pyFormat "cif" [("index", pyOptIntStr none)])) ++
           ("." ++ "gz")),
         ("index", pyOptIntStr none)]) = .ok p := hp
  rw [pyFormat_two_keys
    [("code", code), ("short_code", shortCode code),
     ("filename",
       (pyFormat "{code}" [("code", code), ("index", pyOptIntStr none)] ++
         ("." ++ pyFormat "cif" [("index", pyOptIntStr none)])) ++
       ("." ++ "gz")),
     ("index", pyOptIntStr none)]
    "/data/structures/divided/mmCIF/" "/" _ _
    "/data/structures/divided/mmCIF/{short_code}/{filename}" rfl
    (by decide) (by decide) rfl rfl] at hp
  injection hp with hp
  subst hp
  exact strEndsWith_of_right _ _ _ (strEndsWith_of_right _ _ _
    (strEndsWith_of_right _ _ _ (endsWith_gz_tail _)))

/-- Default `build_path` of the PDBML format ends in `.gz`. -/
lemma pathGz_PDBML (code p : String)
    (hp : formatPDBML.build_path code = .ok p) : strEndsWith p ".gz" := by
  replace hp : Except.ok (ε := BuildPDBFilePathError)
      (pyFormat "/data/structures/divided/XML/{short_code}/{filename}"
        [("code", code), ("short_code", shortCode code),
         ("filename",
           (pyFormat "{code}" [("code", code), ("index", pyOptIntStr none)] ++
             ("." ++ pyFormat "xml" [("index", pyOptIntStr none)])) ++
           ("." ++ "gz")),
         ("index", pyOptIntStr none)]) = .ok p := hp
  rw [pyFormat_two_keys
    [("code", code), ("short_code", shortCode code),
     ("filename",
       (pyFormat "{code}" [("code", code), ("index", pyOptIntStr none)] ++
         ("." ++ pyFormat "xml" [("index", pyOptIntStr none)])) ++
       ("." ++ "gz")),
     ("index", pyOptIntStr none)]
    "/data/structures/divided/XML/" "/" _ _
    "/data/structures/divided/XML/{short_code}/{filename}" rfl
    (by decide) (by decide) rfl rfl] at hp
  injection hp with hp
  subst hp
  exact strEndsWith_of_right _ _ _ (strEndsWith_of_right _ _ _
    (strEndsWith_of_right _ _ _ (endsWith_gz_tail _)))

/-- Default `build_path` of the PDB bundle format ends in `.gz`. -/
lemma pathGz_Bundle (code p : String)
    (hp : formatPDBBundle.build_path code = .ok p) : strEndsWith p ".gz" := by
  replace hp : Except.ok (ε := BuildPDBFilePathError)
      (pyFormat "/compatible/pdb_bundle/{short_code}/{code}/{filename}"
        [("code", code), ("short_code", shortCode code),
         ("filename",
           (pyFormat "{code}-pdb-bundle" [("code", code), ("index", pyOptIntStr none)] ++
             ("." ++ pyFormat "tar" [("index", pyOptIntStr none)])) ++
           ("." ++ "gz")),
         ("index", pyOptIntStr none)]) = .ok p := hp
  rw [pyFormat_three_keys
    [("code", code), ("short_code", shortCode code),
     ("filename",
       (pyFormat "{code}-pdb-bundle" [("code", code), ("index", pyOptIntStr none)] ++
         ("." ++ pyFormat "tar" [("index", pyOptIntStr none)])) ++
       ("." ++ "gz")),
     ("index", pyOptIntStr none)]
    "/compatible/pdb_bundle/" "/" "/" _ _ _
    "/compatible/pdb_bundle/{short_code}/{code}/{filename}" rfl
    (by decide) (by decide) (by decide) rfl rfl rfl] at hp
  injection hp with hp
  subst hp
  exact strEndsWith_of_right _ _ _ (strEndsWith_of_right _ _ _
    (strEndsWith_of_right _ _ _ (strEndsWith_of_right _ _ _
      (strEndsWith_of_right _ _ _ (endsWith_gz_tail _)))))

/-- Default `build_file_url` of the PDB format does not end in `.gz`. -/
lemma urlNotGz_PDB (s : PDBServer) (proto : PDBServerProtocol) (code u : String)
    (hu : s.build_file_url code formatPDB proto = .ok u) :
    ¬ strEndsWith u ".gz" := by
  obtain ⟨dom, path, hdom, hpath, rfl⟩ :=
    build_file_url_ok_inv s code formatPDB proto false false none u hu
  replace hpath : Except.ok (ε := BuildPDBFilePathError)
      (pyFormat "/data/structures/divided/pdb/{short_code}/{filename}"
        [("code", code), ("short_code", shortCode code),
         ("filename",
           (pyFormat "pdb{code}" [("code", code), ("index", pyOptIntStr none)] ++
             ("." ++ pyFormat "ent" [("index", pyOptIntStr none)])) ++ ""),
         ("index", pyOptIntStr none)]) = .ok path := hpath
  rw [pyFormat_two_keys
    [("code", code), ("short_code", shortCode code),
     ("filename",
       (pyFormat "pdb{code}" [("code", code), ("index", pyOptIntStr none)] ++
         ("." ++ pyFormat "ent" [("index", pyOptIntStr none)])) ++ ""),
     ("index", pyOptIntStr none)]
    "/data/structures/divided/pdb/" "/" _ _
    "/data/structures/divided/pdb/{short_code}/{filename}" rfl
    (by decide) (by decide) rfl rfl] at hpath
  injection hpath with hpath
  subst hpath
  refine not_endsWith_gz_of_last (c := 't') (by decide) ?_
  rw [pyFormat_no_braces "ent" _ (by decide), string_append_nil,
    string_append_nil]
  rw [getLast?_string_append _ _
      (string_toList_ne_nil_left "/data/structures/divided/pdb/" _ (by decide)),
    getLast?_string_append _ _
      (string_toList_ne_nil_right _ _
        (string_toList_ne_nil_left "/" _ (by decide))),
    getLast?_string_append _ _ (string_toList_ne_nil_left "/" _ (by decide)),
    getLast?_string_append _ _ (string_toList_ne_nil_right _ _ (by decide)),
    getLast?_string_append _ _ (by decide)]
  decide

/-- Default `build_file_url` of the MMCIF format does not end in `.gz`. -/
lemma urlNotGz_MMCIF (s : PDBServer) (proto : PDBServerProtocol) (code u : String)
    (hu : s.build_file_url code formatMMCIF proto = .ok u) :
    ¬ strEndsWith u ".gz" := by
  obtain ⟨dom, path, hdom, hpath, rfl⟩ :=
    build_file_url_ok_inv s code formatMMCIF proto false false none u hu
  replace hpath : Except.ok (ε := BuildPDBFilePathError)
      (pyFormat "/data/structures/divided/mmCIF/{short_code}/{filename}"
        [("code", code), ("short_code", shortCode code),
         ("filename",
           (pyFormat "{code}" [("code", code), ("index", pyOptIntStr none)] ++
             ("." ++ pyFormat "cif" [("index", pyOptIntStr none)])) ++ ""),
         ("index", pyOptIntStr none)]) = .ok path := hpath
  rw [pyFormat_two_keys
    [("code", code), ("short_code", shortCode code),
     ("filename",
       (pyFormat "{code}" [("code", code), ("index", pyOptIntStr none)] ++
         ("." ++ pyFormat "cif" [("index", pyOptIntStr none)])) ++ ""),
     ("index", pyOptIntStr none)]
    "/data/structures/divided/mmCIF/" "/" _ _
    "/data/structures/divided/mmCIF/{short_code}/{filename}" rfl
    (by decide) (by decide) rfl rfl] at hpath
  injection hpath with hpath
  subst hpath
  refine not_endsWith_gz_of_last (c := 'f') (by decide) ?_
  rw [pyFormat_no_braces "cif" _ (by decide), string_append_nil,
    string_append_nil]
  rw [getLast?_string_append _ _
      (string_toList_ne_nil_left "/data/structures/divided/mmCIF/" _ (by decide)),
    getLast?_string_append _ _
      (string_toList_ne_nil_right _ _
        (string_toList_ne_nil_left "/" _ (by decide))),
    getLast?_string_append _ _ (string_toList_ne_nil_left "/" _ (by decide)),
    getLast?_string_append _ _ (string_toList_ne_nil_right _ _ (by decide)),
    getLast?_string_append _ _ (by decide)]
  decide

/-- Default `build_file_url` of the PDBML format does not end in `.gz`. -/
lemma urlNotGz_PDBML (s : PDBServer) (proto : PDBServerProtocol) (code u : String)
    (hu : s.build_file_url code formatPDBML proto = .ok u) :
    ¬ strEndsWith u ".gz" := by
  obtain ⟨dom, path, hdom, hpath, rfl⟩ :=
    build_file_url_ok_inv s code formatPDBML proto false false none u hu
  replace hpath : Except.ok (ε := BuildPDBFilePathError)
      (pyFormat "/data/structures/divided/XML/{short_code}/{filename}"
        [("code", code), ("short_code", shortCode code),
         ("filename",
           (pyFormat "{code}" [("code", code), ("index", pyOptIntStr none)] ++
             ("." ++ pyFormat "xml" [("index", pyOptIntStr none)])) ++ ""),
         ("index", pyOptIntStr none)]) = .ok path := hpath
  rw [pyFormat_two_keys
    [("code", code), ("short_code", shortCode code),
     ("filename",
       (pyFormat "{code}" [("code", code), ("index", pyOptIntStr none)] ++
         ("." ++ pyFormat "xml" [("index", pyOptIntStr none)])) ++ ""),
     ("index", pyOptIntStr none)]
    "/data/structures/divided/XML/" "/" _ _
    "/data/structures/divided/XML/{short_code}/{filename}" rfl
    (by decide) (by decide) rfl rfl] at hpath
  injection hpath with hpath
  subst hpath
  refine not_endsWith_gz_of_last (c := 'l') (by decide) ?_
  rw [pyFormat_no_braces "xml" _ (by decide), string_append_nil,
    string_append_nil]
  rw [getLast?_string_append _ _
      (string_toList_ne_nil_left "/data/structures/divided/XML/" _ (by decide)),
    getLast?_string_append _ _
      (string_toList_ne_nil_right _ _
        (string_toList_ne_nil_left "/" _ (by decide))),
    getLast?_string_append _ _ (string_toList_ne_nil_left "/" _ (by decide)),
    getLast?_string_append _ _ (string_toList_ne_nil_right _ _ (by decide)),
    getLast?_string_append _ _ (by decide)]
  decide

/-- Default `build_file_url` of the PDB bundle format does not end in `.gz`. -/
lemma urlNotGz_Bundle (s : PDBServer) (proto : PDBServerProtocol) (code u : String)
    (hu : s.build_file_url code formatPDBBundle proto = .ok u) :
    ¬ strEndsWith u ".gz" := by
  obtain ⟨dom, path, hdom, hpath, rfl⟩ :=
    build_file_url_ok_inv s code formatPDBBundle proto false false none u hu
  replace hpath : Except.ok (ε := BuildPDBFilePathError)
      (pyFormat "/compatible/pdb_bundle/{short_code}/{code}/{filename}"
        [("code", code), ("short_code", shortCode code),
         ("filename",
           (pyFormat "{code}-pdb-bundle" [("code", code), ("index", pyOptIntStr none)] ++
             ("." ++ pyFormat "tar" [("index", pyOptIntStr none)])) ++ ""),
         ("index", pyOptIntStr none)]) = .ok path := hpath
  rw [pyFormat_three_keys
    [("code", code), ("short_code", shortCode code),
     ("filename",
       (pyFormat "{code}-pdb-bundle" [("code", code), ("index", pyOptIntStr none)] ++
         ("." ++ pyFormat "tar" [("index", pyOptIntStr none)])) ++ ""),
     ("index", pyOptIntStr none)]
    "/compatible/pdb_bundle/" "/" "/" _ _ _
    "/compatible/pdb_bundle/{short_code}/{code}/{filename}" rfl
    (by decide) (by decide) (by decide) rfl rfl rfl] at hpath
  injection hpath with hpath
  subst hpath
  refine not_endsWith_gz_of_last (c := 'r') (by decide) ?_
  rw [pyFormat_no_braces "tar" _ (by decide), string_append_nil,
    string_append_nil]
  rw [getLast?_string_append _ _
      (string_toList_ne_nil_left "/compatible/pdb_bundle/" _ (by decide)),
    getLast?_string_append _ _
      (string_toList_ne_nil_right _ _
        (string_toList_ne_nil_left "/" _ (by decide))),
    getLast?_string_append _ _ (string_toList_ne_nil_left "/" _ (by decide)),
    getLast?_string_append _ _
      (string_toList_ne_nil_right _ _
        (string_toList_ne_nil_left "/" _ (by decide))),
    getLast?_string_append _ _ (string_toList_ne_nil_left "/" _ (by decide)),
    getLast?_string_append _ _ (string_toList_ne_nil_right _ _ (by decide)),
    getLast?_string_append _ _ (by decide)]
  decide

/-- C9: for the MMCIF format, `build_path` (resolvePath) with code
`"127d"`, `compressed=false`, `obsolete=false` returns
`/data/structures/divided/mmCIF/27/127d.cif`; the short code used for
directory sharding is characters 2 and 3 (1-indexed) of a 4-character
structure code. -/
theorem C9_mmcif_resolve_path_and_short_code :
    formatMMCIF.build_path "127d" false false none =
      .ok "/data/structures/divided/mmCIF/27/127d.cif" ∧
    ∀ c1 c2 c3 c4 : Char,
      shortCode (String.mk [c1, c2, c3, c4]) = String.mk [c2, c3] :=
  ⟨by decide, fun _ _ _ _ => rfl⟩

/-- C8: requesting `compressed=true` for the MMTF format succeeds — its
compressed marker is the empty string, which counts as present (a state
distinct from absent) — and the resulting file name is exactly the bare
code: the empty extension and the empty compressed extension append no
suffix. -/
theorem C8_mmtf_compressed_name_is_bare_code :
    formatMMTF.compressed_extension = some "" ∧
    formatMMTF.has_compressed_file = true ∧
    ∀ code : String, formatMMTF.build_name code true none = .ok code := by
  refine ⟨rfl, rfl, fun code => ?_⟩
  show Except.ok
      (pyFormat "{code}" [("code", code), ("index", pyOptIntStr none)] ++ "" ++ "") =
    .ok code
  have h1 : pyFormat "{code}" [("code", code), ("index", pyOptIntStr none)] =
      String.mk (code.toList ++ []) := rfl
  rw [string_append_nil, string_append_nil, h1, List.append_nil, string_mk_toList]

/-- C6: legacy string-form server addresses parse as specified:
`ftp://ftp.wwpdb.org` yields the server with domain `wwpdb.org` paired
with protocol FTP; `ftps://ftp.wwpdb.org` fails with
`UnsupportedProtocolError`; `ftp://ftp.unknown-host.org` fails with
`UnsupportedServerError`; the two error kinds are distinct. -/
theorem C6_handle_legacy_server_cases :
    handle_legacy_server "ftp://ftp.wwpdb.org" = .ok (serverWW, .FTP) ∧
    serverWW.domain = "wwpdb.org" ∧
    handle_legacy_server "ftps://ftp.wwpdb.org" = .error .unsupportedProtocol ∧
    handle_legacy_server "ftp://ftp.unknown-host.org" =
      .error (.unsupportedServer "ftp://ftp.unknown-host.org") ∧
    PDBServerError.unsupportedProtocol ≠
      PDBServerError.unsupportedServer "ftp://ftp.unknown-host.org" :=
  ⟨by decide, rfl, by decide, by decide, by decide⟩

/-- C2 counterexample: for the multi-file PDB_ASSEMBLY format, a negative
index — non-positive, hence to be rejected according to the claim — is
accepted: `build_name` succeeds, rendering the index into the extension. -/
theorem C2_counterexample_negative_index_accepted :
    formatPDBAssembly.build_name "127d" false (some (-1)) = .ok "127d.pdb-1" := by
  decide

/-- C2 (amended): `build_name` (resolveFileName) fails with
`BuildPDBFilePathError` exactly when compression is requested but the
format has no compressed variant, or when the format supports multiple
files and the index is absent or zero (Python's falsy test, which lets a
negative index through); omitting the index for PDB_ASSEMBLY fails; any
index >= 1 together with a supported compression request succeeds. -/
theorem C2_build_name_error_iff :
    (∀ (f : PDBFileFormat) (code : String) (compressed : Bool)
        (index : Option Int),
      (∃ e, f.build_name code compressed index = .error e) ↔
        ((compressed = true ∧ f.compressed_extension = none) ∨
          (f.multiple_files = true ∧ (index = none ∨ index = some 0)))) ∧
    formatPDBAssembly.build_name "127d" false none = .error .indexRequired ∧
    (∀ (f : PDBFileFormat) (code : String) (compressed : Bool) (i : Int),
      1 ≤ i → (compressed = true → f.compressed_extension ≠ none) →
      ∃ name, f.build_name code compressed (some i) = .ok name) := by
  refine ⟨fun f code compressed index => ?_, by decide,
    fun f code compressed i hi hc => ?_⟩
  · unfold PDBFileFormat.build_name
    split_ifs with h1 h2
    · exact iff_of_true ⟨_, rfl⟩
        (Or.inl ⟨h1.1, (has_compressed_false_iff f).mp h1.2⟩)
    · exact iff_of_true ⟨_, rfl⟩
        (Or.inr ⟨h2.1, (pyOptIntFalsy_iff index).mp h2.2⟩)
    · constructor
      · rintro ⟨e, he⟩
        exact he.elim
      · rintro (⟨hcp, hn⟩ | ⟨hm, hidx⟩)
        · exact absurd ⟨hcp, (has_compressed_false_iff f).mpr hn⟩ h1
        · exact absurd ⟨hm, (pyOptIntFalsy_iff index).mpr hidx⟩ h2
  · have hA : ¬ ((compressed : Prop) ∧ ¬ f.has_compressed_file) := by
      rintro ⟨hcp, hn⟩
      exact hc hcp ((has_compressed_false_iff f).mp hn)
    have hB : ¬ ((f.multiple_files : Prop) ∧ pyOptIntFalsy (some i)) := by
      rintro ⟨_, hfal⟩
      rcases (pyOptIntFalsy_iff (some i)).mp hfal with h | h
      · exact Option.noConfusion h
      · rw [Option.some.injEq] at h
        omega
    unfold PDBFileFormat.build_name
    rw [if_neg hA, if_neg hB]
    exact ⟨_, rfl⟩

/-- C2 witness: a concrete call with index 2 (>= 1) and supported
compression succeeds. -/
theorem C2_build_name_error_iff_witness :
    (1 : Int) ≤ 2 ∧
    ∃ name, formatPDBAssembly.build_name "127d" true (some 2) = .ok name :=
  ⟨by decide,
    C2_build_name_error_iff.2.2 formatPDBAssembly "127d" true 2 (by decide)
      (fun _ => by decide)⟩

/-- C4: `get_fastest_server` selects the reachable server with the
strictly smallest recorded connect time (failed or timed-out probes are
discarded, zero durations ignored, the first-seen server wins ties, and
with no usable probe it fails with the connection error): it coincides
with the spec-side selection; on measured times [5, 0, 1] it selects the
third server, never the zero one; equal times resolve to the first-seen
server; all-unusable probes give the error. -/
theorem C4_fastest_server_selection :
    (∀ (σ : Type) (timing : σ → Option ℚ) (servers : List σ),
      get_fastest_server timing servers = fastestServerSpec timing servers) ∧
    get_fastest_server
      (fun n => if n = 0 then some 5 else if n = 1 then some 0 else some 1)
      ([0, 1, 2] : List Nat) = .ok 2 ∧
    get_fastest_server
      (fun n => if n = 0 then some 5 else if n = 1 then some 0 else some 1)
      ([0, 1, 2] : List Nat) ≠ .ok 1 ∧
    get_fastest_server (fun _ => some 2) ([0, 1] : List Nat) = .ok 0 ∧
    get_fastest_server (fun n => if n = 1 then some 0 else none)
      ([0, 1] : List Nat) = .error () :=
  ⟨fun _ t s => get_fastest_server_eq_spec t s, by decide, by decide,
    by decide, by decide⟩

/-- C7 counterexample: the FTP protocol is allowed by a format whose
subdomain override is set to the empty string, yet the host is built from
the protocol's subdomain (`ftp`), not from the override: the claim's
`subdomainOverride ++ "." ++ domain` is not produced. -/
theorem C7_counterexample_empty_override_ignored :
    formatEmptySubdomain.subdomain = some "" ∧
    PDBServerProtocol.FTP ∈ formatEmptySubdomain.protocols ∧
    serverWW.build_full_domain .FTP formatEmptySubdomain = .ok "ftp.wwpdb.org" ∧
    serverWW.build_full_domain .FTP formatEmptySubdomain ≠
      .ok ("" ++ "." ++ serverWW.domain) := by
  refine ⟨rfl, by decide, by decide, by decide⟩

/-- C7 (amended): for a protocol the format permits, the built host is
`sub ++ "." ++ server.domain`, where `sub` is the format's subdomain
override when that is set *and nonempty*, and otherwise (including the
empty-string override, which the code's truthiness test skips) the
server's FTP subdomain for FTP and HTTPS subdomain for HTTPS; a protocol
the format does not permit fails with `UnsupportedProtocolError`. -/
theorem C7_build_full_domain :
    ∀ (s : PDBServer) (protocol : PDBServerProtocol) (f : PDBFileFormat),
      (protocol ∈ f.protocols →
        s.build_full_domain protocol f =
          .ok ((match f.subdomain with
            | some sub => if sub ≠ "" then sub else protocolSubdomain s protocol
            | none => protocolSubdomain s protocol) ++ "." ++ s.domain)) ∧
      (protocol ∉ f.protocols →
        s.build_full_domain protocol f = .error .unsupportedProtocol) := by
  intro s protocol f
  constructor
  · intro hmem
    unfold PDBServer.build_full_domain PDBServer.subdomain
    rw [if_neg (by simp [hmem])]
    cases hsub : f.subdomain with
    | none =>
      cases protocol <;> simp [pyOptStrTruthy, Except.map, protocolSubdomain]
    | some sub =>
      by_cases hs : sub = ""
      · subst hs
        cases protocol <;> simp [pyOptStrTruthy, Except.map, protocolSubdomain]
      · simp [pyOptStrTruthy, hs, Except.map]
  · intro hmem
    unfold PDBServer.build_full_domain PDBServer.subdomain
    rw [if_pos hmem]
    rfl

/-- C7 witness: the PDB format (no override) over FTP on the worldwide
server builds `ftp.wwpdb.org`; HTTPS on the UK server (whose HTTPS
subdomain is `ftp`) builds `ftp.ebi.ac.uk`. -/
theorem C7_build_full_domain_witness :
    PDBServerProtocol.FTP ∈ formatPDB.protocols ∧
    serverWW.build_full_domain .FTP formatPDB = .ok ("ftp" ++ "." ++ "wwpdb.org") ∧
    PDBServerProtocol.FTP ∉ formatMMTF.protocols ∧
    serverUS.build_full_domain .FTP formatMMTF = .error .unsupportedProtocol :=
  ⟨by decide,
    (C7_build_full_domain serverWW .FTP formatPDB).1 (by decide),
    by decide,
    (C7_build_full_domain serverUS .FTP formatMMTF).2 (by decide)⟩

/-- C10: the two public path-building entry points have opposite
compression defaults — `build_path` defaults `compressed` to true while
`build_file_url` defaults it to false, and `retrieve_file` defaults it
back to true — hence for every built-in format whose compressed extension
is the non-empty default `gz`, `build_path` called without an explicit
`compressed` argument returns a path ending in `.gz`, while
`build_file_url` called without one produces a URL that does not end in
`.gz`. -/
theorem C10_opposite_compression_defaults :
    (∀ (f : PDBFileFormat) (code : String),
      f.build_path code = f.build_path code true false none) ∧
    (∀ (s : PDBServer) (code : String) (f : PDBFileFormat)
        (proto : PDBServerProtocol),
      s.build_file_url code f proto =
        s.build_file_url code f proto false false none) ∧
    (∀ (s : PDBServer) (code : String) (f : PDBFileFormat)
        (proto : PDBServerProtocol),
      s.retrieve_file_url code f proto =
        s.build_file_url code f proto true false none) ∧
    (∀ (k : String) (f : PDBFileFormat), (k, f) ∈ FILE_FORMATS →
      f.compressed_extension = some "gz" →
      ∀ (code p : String), f.build_path code = .ok p → strEndsWith p ".gz") ∧
    (∀ (k : String) (f : PDBFileFormat), (k, f) ∈ FILE_FORMATS →
      f.compressed_extension = some "gz" →
      ∀ (s : PDBServer) (proto : PDBServerProtocol) (code u : String),
        s.build_file_url code f proto = .ok u → ¬ strEndsWith u ".gz") := by
  refine ⟨fun f code => rfl, fun s code f proto => rfl,
    fun s code f proto => rfl, ?_, ?_⟩
  · intro k f hmem hgz code p hp
    simp only [FILE_FORMATS, List.mem_cons, List.not_mem_nil, or_false,
      Prod.mk.injEq] at hmem
    rcases hmem with ⟨rfl, rfl⟩ | ⟨rfl, rfl⟩ | ⟨rfl, rfl⟩ | ⟨rfl, rfl⟩ |
      ⟨rfl, rfl⟩ | ⟨rfl, rfl⟩ | ⟨rfl, rfl⟩
    · exact pathGz_PDB code p hp
    · rw [show formatPDBAssembly.build_path code true false none =
          .error .indexRequired from rfl] at hp
      exact absurd hp (by simp)
    · exact pathGz_MMCIF code p hp
    · rw [show formatMMCIFAssembly.build_path code true false none =
          .error .indexRequired from rfl] at hp
      exact absurd hp (by simp)
    · exact pathGz_PDBML code p hp
    · exact pathGz_Bundle code p hp
    · exact absurd hgz (by decide)
  · intro k f hmem hgz s proto code u hu
    simp only [FILE_FORMATS, List.mem_cons, List.not_mem_nil, or_false,
      Prod.mk.injEq] at hmem
    rcases hmem with ⟨rfl, rfl⟩ | ⟨rfl, rfl⟩ | ⟨rfl, rfl⟩ | ⟨rfl, rfl⟩ |
      ⟨rfl, rfl⟩ | ⟨rfl, rfl⟩ | ⟨rfl, rfl⟩
    · exact urlNotGz_PDB s proto code u hu
    · obtain ⟨dom, path, hdom, hpath, rfl⟩ :=
        build_file_url_ok_inv s code formatPDBAssembly proto false false none u hu
      rw [show formatPDBAssembly.build_path code false false none =
          .error .indexRequired from rfl] at hpath
      exact absurd hpath (by simp)
    · exact urlNotGz_MMCIF s proto code u hu
    · obtain ⟨dom, path, hdom, hpath, rfl⟩ :=
        build_file_url_ok_inv s code formatMMCIFAssembly proto false false none u hu
      rw [show formatMMCIFAssembly.build_path code false false none =
          .error .indexRequired from rfl] at hpath
      exact absurd hpath (by simp)
    · exact urlNotGz_PDBML s proto code u hu
    · exact urlNotGz_Bundle s proto code u hu
    · exact absurd hgz (by decide)

/-- C10 witness: for the MMCIF format at code `127d`, the default
`build_path` yields a path ending in `.gz` and the default
`build_file_url` over FTP on the worldwide server yields a URL not ending
in `.gz`. -/
theorem C10_opposite_compression_defaults_witness :
    ("MMCIF", formatMMCIF) ∈ FILE_FORMATS ∧
    formatMMCIF.build_path "127d" =
      .ok "/data/structures/divided/mmCIF/27/127d.cif.gz" ∧
    strEndsWith "/data/structures/divided/mmCIF/27/127d.cif.gz" ".gz" ∧
    serverWW.build_file_url "127d" formatMMCIF .FTP =
      .ok "ftp://ftp.wwpdb.org/pub/pdb/data/structures/divided/mmCIF/27/127d.cif" ∧
    ¬ strEndsWith
      "ftp://ftp.wwpdb.org/pub/pdb/data/structures/divided/mmCIF/27/127d.cif"
      ".gz" :=
  ⟨by decide, by decide,
    C10_opposite_compression_defaults.2.2.2.1 "MMCIF" formatMMCIF (by decide)
      rfl "127d" _ (by decide),
    by decide,
    C10_opposite_compression_defaults.2.2.2.2 "MMCIF" formatMMCIF (by decide)
      rfl serverWW .FTP "127d" _ (by decide)⟩

/-- C5: if `overwrite=false` and the local final path already exists,
`retrieve_pdb_file` returns that path immediately with the state
untouched (no network access, the existing file unchanged); consequently
two successive calls with `overwrite=false` for the same code and format
issue exactly one network fetch and both return the same path. -/
theorem C5_existing_file_skips_fetch :
    (∀ (env : NetEnv) (cfg : PDBListCfg) (pdb_code ffmt : String)
        (obsolete : Bool) (pdir : Option String) (st : RunState),
      (archiveFn ffmt (pyLower pdb_code)).isSome = true →
      (st.fs.lookupF (retrieveFinalPath cfg pdb_code ffmt obsolete pdir)).isSome
        = true →
      retrieve_pdb_file env cfg pdb_code ffmt obsolete pdir false st =
        .ok (retrieveFinalPath cfg pdb_code ffmt obsolete pdir, st)) ∧
    (∀ (env : NetEnv) (cfg : PDBListCfg) (pdb_code ffmt : String)
        (obsolete : Bool) (pdir : Option String) (st : RunState)
        (afn content : String),
      ffmt ∈ (["pdb", "mmCif", "xml", "mmtf", "bundle"] : List String) →
      archiveFn ffmt (pyLower pdb_code) = some afn →
      env.fetch (retrieveUrl cfg.pdb_dir_url ffmt (pyLower pdb_code) afn obsolete)
        = some content →
      st.fs.lookupF (retrieveFinalPath cfg pdb_code ffmt obsolete pdir) = none →
      ∃ st1 : RunState,
        retrieve_pdb_file env cfg pdb_code ffmt obsolete pdir false st =
          .ok (retrieveFinalPath cfg pdb_code ffmt obsolete pdir, st1) ∧
        st1.fetchLog = st.fetchLog ++
          [retrieveUrl cfg.pdb_dir_url ffmt (pyLower pdb_code) afn obsolete] ∧
        st1.fs.lookupF (retrieveFinalPath cfg pdb_code ffmt obsolete pdir) =
          some (env.gunzip content) ∧
        retrieve_pdb_file env cfg pdb_code ffmt obsolete pdir false st1 =
          .ok (retrieveFinalPath cfg pdb_code ffmt obsolete pdir, st1)) := by
  constructor
  · intro env cfg pdb_code ffmt obsolete pdir st h1 h2
    exact retrieve_skip env cfg pdb_code ffmt obsolete pdir st h1 h2
  · intro env cfg pdb_code ffmt obsolete pdir st afn content hmem hafn hfetch hnone
    have hne := final_ne_archive cfg pdb_code ffmt obsolete pdir afn hmem hafn
    refine ⟨_,
      retrieve_fetch_ok env cfg pdb_code ffmt obsolete pdir false st afn content
        hafn (by simp [hnone]) hfetch, rfl, ?_, ?_⟩
    · rw [FS.lookupF_remove_ne _ _ _ hne, FS.lookupF_write_self]
    · apply retrieve_skip
      · rw [hafn]
        rfl
      · rw [FS.lookupF_remove_ne _ _ _ hne, FS.lookupF_write_self]
        rfl

/-- C5 witness: with the final file already on disk the call returns it
with the state untouched; starting from an empty tree, the first call
fetches and the second call is a no-op returning the same path. -/
theorem C5_existing_file_skips_fetch_witness :
    (retrieve_pdb_file envAlways cfgTest "127d" "mmCif" false none false
        ⟨⟨[("/pdb/27/127d.cif", "OLD")]⟩, []⟩ =
      .ok (retrieveFinalPath cfgTest "127d" "mmCif" false none,
        ⟨⟨[("/pdb/27/127d.cif", "OLD")]⟩, []⟩)) ∧
    ∃ st1 : RunState,
      retrieve_pdb_file envAlways cfgTest "127d" "mmCif" false none false
          ⟨⟨[]⟩, []⟩ =
        .ok (retrieveFinalPath cfgTest "127d" "mmCif" false none, st1) ∧
      retrieve_pdb_file envAlways cfgTest "127d" "mmCif" false none false st1 =
        .ok (retrieveFinalPath cfgTest "127d" "mmCif" false none, st1) := by
  constructor
  · exact C5_existing_file_skips_fetch.1 envAlways cfgTest "127d" "mmCif" false
      none ⟨⟨[("/pdb/27/127d.cif", "OLD")]⟩, []⟩ (by decide) (by decide)
  · obtain ⟨st1, h1, _, _, h4⟩ :=
      C5_existing_file_skips_fetch.2 envAlways cfgTest "127d" "mmCif" false none
        ⟨⟨[]⟩, []⟩ "127d.cif.gz" "DATA" (by decide) (by decide) (by decide)
        (by decide)
    exact ⟨st1, h1, h4⟩

/-- C1 counterexample: a retrieval whose fetch fails (the remote file is
absent) does not surface any error — the call returns the final path with
only the attempted URL logged — and no file exists at the final path. -/
theorem C1_counterexample_fetch_failure_returns_ok :
    retrieve_pdb_file envFail cfgTest "127d" "mmCif" false none false
        ⟨⟨[]⟩, []⟩ =
      .ok ("/pdb/27/127d.cif",
        ⟨⟨[]⟩,
          ["https://files.rcsb.org/pub/pdb/data/structures/divided/mmCIF/27/127d.cif.gz"]⟩) ∧
    (FS.mk []).lookupF "/pdb/27/127d.cif" = none := by
  decide

/-- C1 (amended): when acquiring bytes from the remote URL fails,
`retrieve_pdb_file` catches the failure (`except OSError`), prints a
message instead of raising — there is no `RetrievalError` — and still
returns the local final path; it writes nothing, so no file (not even a
half-written one) appears at the final path. -/
theorem C1_fetch_failure_caught_no_file :
    ∀ (env : NetEnv) (cfg : PDBListCfg) (pdb_code ffmt : String)
      (obsolete : Bool) (pdir : Option String) (overwrite : Bool)
      (st : RunState) (afn : String),
      archiveFn ffmt (pyLower pdb_code) = some afn →
      env.fetch (retrieveUrl cfg.pdb_dir_url ffmt (pyLower pdb_code) afn obsolete)
        = none →
      st.fs.lookupF (retrieveFinalPath cfg pdb_code ffmt obsolete pdir) = none →
      retrieve_pdb_file env cfg pdb_code ffmt obsolete pdir overwrite st =
        .ok (retrieveFinalPath cfg pdb_code ffmt obsolete pdir,
          { fs := st.fs,
            fetchLog := st.fetchLog ++
              [retrieveUrl cfg.pdb_dir_url ffmt (pyLower pdb_code) afn obsolete] }) ∧
      (RunState.mk st.fs (st.fetchLog ++
          [retrieveUrl cfg.pdb_dir_url ffmt (pyLower pdb_code) afn obsolete])).fs.lookupF
        (retrieveFinalPath cfg pdb_code ffmt obsolete pdir) = none := by
  intro env cfg pdb_code ffmt obsolete pdir overwrite st afn hafn hfetch hnone
  constructor
  · simp only [retrieve_pdb_file, hafn]
    rw [if_neg (by simp [hnone])]
    simp only [hfetch]
  · exact hnone

/-- C1 witness: the amended statement at the concrete failing scenario. -/
theorem C1_fetch_failure_caught_no_file_witness :
    retrieve_pdb_file envFail cfgTest "127d" "mmCif" false none false
        ⟨⟨[]⟩, []⟩ =
      .ok (retrieveFinalPath cfgTest "127d" "mmCif" false none,
        { fs := (⟨[]⟩ : FS),
          fetchLog := ([] : List String) ++
            [retrieveUrl cfgTest.pdb_dir_url "mmCif" (pyLower "127d")
              "127d.cif.gz" false] }) :=
  (C1_fetch_failure_caught_no_file envFail cfgTest "127d" "mmCif" false none
    false ⟨⟨[]⟩, []⟩ "127d.cif.gz" (by decide) (by decide) (by decide)).1

/-- The `download_assemblies` loop can only produce the Python `None`
(or propagate a non-`URLError` exception); it never produces a list. -/
lemma download_go_never_some (env : NetEnv) (cfg : PDBListCfg)
    (pdb_code file_format : String) (overwrite : Bool) (pdir : Option String) :
    ∀ (remaining idx : Nat) (st : RunState) (l : List String),
      (download_assemblies_go env cfg pdb_code file_format overwrite pdir
        remaining idx st).1 ≠ .ok (some l) := by
  intro remaining
  induction remaining with
  | zero =>
    intro idx st l h
    simp [download_assemblies_go] at h
  | succ rem ih =>
    intro idx st l h
    rw [download_assemblies_go] at h
    rcases hr : retrieve_assembly_file env cfg pdb_code (idx + 1) file_format
      overwrite pdir st with ⟨r, st1⟩
    rw [hr] at h
    cases r with
    | ok v => exact ih (idx + 1) st1 l h
    | error e =>
      by_cases he : e = "URLError" <;> simp [he] at h

/-- One successful step of `retrieve_assembly_file` under `overwrite=True`. -/
lemma retrieve_assembly_step (env : NetEnv) (cfg : PDBListCfg)
    (pdb_code file_format : String) (pdir : Option String) (st : RunState)
    (i : Nat) (afn : String)
    (hafn : assemblyArchiveFn (pyLower file_format) (pyLower pdb_code) i =
      some afn) :
    retrieve_assembly_file env cfg pdb_code i file_format true pdir st =
      (match env.fetch (assemblyUrl cfg.pdb_dir_url (pyLower file_format) afn) with
        | none => (.error "URLError",
            { fs := st.fs,
              fetchLog := st.fetchLog ++
                [assemblyUrl cfg.pdb_dir_url (pyLower file_format) afn] })
        | some content =>
          (.ok (pathJoin (assemblyDir cfg pdb_code pdir)
              (String.mk (afn.toList.take (afn.toList.length - 3)))),
            { fs := ((st.fs.write (pathJoin (assemblyDir cfg pdb_code pdir) afn)
                  content).write
                (pathJoin (assemblyDir cfg pdb_code pdir)
                  (String.mk (afn.toList.take (afn.toList.length - 3))))
                (env.gunzip content)).remove
                (pathJoin (assemblyDir cfg pdb_code pdir) afn),
              fetchLog := st.fetchLog ++
                [assemblyUrl cfg.pdb_dir_url (pyLower file_format) afn] })) := by
  simp only [retrieve_assembly_file, hafn]
  rw [if_neg (by simp)]

/-- The fetch log of the `download_assemblies` loop under `overwrite=True`
(for a format with a defined archive pattern): attempts start right after
the current index, increment by one, and stop at the first failed fetch
or when the budget runs out. -/
lemma download_go_fetchLog (env : NetEnv) (cfg : PDBListCfg)
    (pdb_code file_format : String) (pdir : Option String)
    (harch : ∀ i : Nat,
      (assemblyArchiveFn (pyLower file_format) (pyLower pdb_code) i).isSome
        = true) :
    ∀ (remaining idx : Nat) (st : RunState),
      (download_assemblies_go env cfg pdb_code file_format true pdir remaining
        idx st).2.fetchLog =
        st.fetchLog ++
          (List.range' (idx + 1)
            (assemblyAttempts env cfg file_format pdb_code remaining idx)).map
            (assemblyUrlOf cfg file_format pdb_code) := by
  intro remaining
  induction remaining with
  | zero =>
    intro idx st
    simp [download_assemblies_go, assemblyAttempts]
  | succ rem ih =>
    intro idx st
    obtain ⟨afn, hafn⟩ := Option.isSome_iff_exists.mp (harch (idx + 1))
    have hurl : assemblyUrlOf cfg file_format pdb_code (idx + 1) =
        assemblyUrl cfg.pdb_dir_url (pyLower file_format) afn := by
      unfold assemblyUrlOf
      rw [hafn]
      rfl
    rw [download_assemblies_go,
      retrieve_assembly_step env cfg pdb_code file_format pdir st (idx + 1) afn
        hafn]
    cases hf : env.fetch (assemblyUrl cfg.pdb_dir_url (pyLower file_format) afn) with
    | none =>
      rw [assemblyAttempts, hurl, hf]
      simp [List.range', hurl]
    | some content =>
      rw [assemblyAttempts, hurl, hf]
      simp only [Option.isNone_some, Bool.false_eq_true, if_false]
      rw [Nat.add_comm 1 _]
      simp only [List.range']
      rw [ih (idx + 1)]
      simp [hurl]

/-- The attempt count never exceeds the remaining budget. -/
lemma assemblyAttempts_le (env : NetEnv) (cfg : PDBListCfg)
    (file_format pdb_code : String) :
    ∀ (remaining idx : Nat),
      assemblyAttempts env cfg file_format pdb_code remaining idx ≤ remaining := by
  intro remaining
  induction remaining with
  | zero =>
    intro idx
    simp [assemblyAttempts]
  | succ rem ih =>
    intro idx
    rw [assemblyAttempts]
    split
    · omega
    · have := ih (idx + 1)
      omega

/-- C3 counterexample: with exactly one assembly available, the loop
retrieves it (the file appears at its local path) and then stops at the
not-found response for index 2 — but the call returns the Python `None`,
not the list of retrieved paths. -/
theorem C3_counterexample_returns_none_not_list :
    (download_assemblies envOneAssembly cfgTest "127d" "mmCif" true none
      ⟨⟨[]⟩, []⟩).1 = .ok none ∧
    (download_assemblies envOneAssembly cfgTest "127d" "mmCif" true none
      ⟨⟨[]⟩, []⟩).2.fs.lookupF "/pdb/27/127d-assembly1.cif" = some "GZDATA!" ∧
    (Except.ok (some ["/pdb/27/127d-assembly1.cif"]) :
      Except String (Option (List String))) ≠ .ok none := by
  decide

/-- C3 (amended): `download_assemblies` attempts indices starting at 1
and incrementing by 1, stops at the first not-found response
(`URLError`) or after the safety bound of 20 attempts, and places the
retrieved files locally — but it returns the Python `None` (propagating
only non-`URLError` exceptions), never the list of retrieved paths. -/
theorem C3_download_assemblies_loop :
    (∀ (env : NetEnv) (cfg : PDBListCfg) (pdb_code file_format : String)
        (overwrite : Bool) (pdir : Option String) (st : RunState)
        (l : List String),
      (download_assemblies env cfg pdb_code file_format overwrite pdir st).1 ≠
        .ok (some l)) ∧
    (∀ (env : NetEnv) (cfg : PDBListCfg) (pdb_code file_format : String)
        (pdir : Option String) (st : RunState),
      (∀ i : Nat, (assemblyArchiveFn (pyLower file_format)
        (pyLower pdb_code) i).isSome = true) →
      (download_assemblies env cfg pdb_code file_format true pdir st).2.fetchLog
        = st.fetchLog ++
          (List.range' 1 (assemblyAttemptCount env cfg file_format pdb_code)).map
            (assemblyUrlOf cfg file_format pdb_code)) ∧
    (∀ (env : NetEnv) (cfg : PDBListCfg) (file_format pdb_code : String),
      assemblyAttemptCount env cfg file_format pdb_code ≤ 20) := by
  refine ⟨?_, ?_, ?_⟩
  · intro env cfg pdb_code file_format overwrite pdir st l
    exact download_go_never_some env cfg pdb_code file_format overwrite pdir
      20 0 st l
  · intro env cfg pdb_code file_format pdir st harch
    exact download_go_fetchLog env cfg pdb_code file_format pdir harch 20 0 st
  · intro env cfg file_format pdb_code
    exact assemblyAttempts_le env cfg file_format pdb_code 20 0

/-- C3 witness: in the one-assembly scenario the loop fetches the URLs
for indices 1 and 2 (the second being the not-found stop), two attempts
in total. -/
theorem C3_download_assemblies_loop_witness :
    (download_assemblies envOneAssembly cfgTest "127d" "mmCif" true none
      ⟨⟨[]⟩, []⟩).2.fetchLog =
      (⟨⟨[]⟩, []⟩ : RunState).fetchLog ++
        (List.range' 1
          (assemblyAttemptCount envOneAssembly cfgTest "mmCif" "127d")).map
          (assemblyUrlOf cfgTest "mmCif" "127d") ∧
    assemblyAttemptCount envOneAssembly cfgTest "mmCif" "127d" = 2 :=
  ⟨C3_download_assemblies_loop.2.1 envOneAssembly cfgTest "127d" "mmCif" none
    ⟨⟨[]⟩, []⟩ (fun _ => rfl), by decide⟩

end BioPDB
